import Mathlib

/-!
# Luxio firmware: command dispatcher, device state and LED engine

A shallow embedding of `src/main.cpp`.  The globals of the firmware are the
fields of one `State` record that every function takes and returns.  The
libraries the firmware calls (ArduinoJson, AsyncTimer, the WiFi stack, the
strip driver, EEPROM) are modelled at their interface, each with a comment
saying what is kept of them.
-/

set_option autoImplicit false

namespace Luxio

/-! ## ArduinoJson values -/

/-- Value of a `JsonVariant` / `JsonDocument` (ArduinoJson 7).  `float num den`
is a number written with a fraction or an exponent, its value being
`num / (den + 1)`; `int` is a number stored as an integer.  A string is a
sequence of bytes, one `Char` standing for one byte. -/
inductive Json where
  | null
  | bool (b : Bool)
  | int (n : Int)
  | float (num : Int) (den : Nat)
  | str (s : String)
  | arr (xs : List Json)
  | obj (kvs : List (String × Json))
deriving Repr, Inhabited

/-- Member lookup in the key/value list of an object: the first entry with the
key, `null` when there is none. -/
def Json.lookup (key : String) : List (String × Json) → Json
  | [] => Json.null
  | (k, v) :: rest => if k = key then v else Json.lookup key rest

/-- Expression `v[key]` for a string key: the member of an object, `null` (an
unbound variant) for a missing key and for any value that is not an object. -/
def Json.get (v : Json) (key : String) : Json :=
  match v with
  | Json.obj kvs => Json.lookup key kvs
  | _ => Json.null

/-- Replace the value of the first entry with the key, or append a new entry. -/
def Json.insert (key : String) (val : Json) : List (String × Json) → List (String × Json)
  | [] => [(key, val)]
  | (k, v) :: rest => if k = key then (k, val) :: rest else (k, v) :: Json.insert key val rest

/-- Statement `doc[key] = val`: a document that is not an object (a fresh
document is `null`) becomes an object first. -/
def Json.set (doc : Json) (key : String) (val : Json) : Json :=
  match doc with
  | Json.obj kvs => Json.obj (Json.insert key val kvs)
  | _ => Json.obj [(key, val)]

/-- Statement `doc[k1][k2] = val`. -/
def Json.set2 (doc : Json) (k1 k2 : String) (val : Json) : Json :=
  doc.set k1 ((doc.get k1).set k2 val)

/-- Keys of an object, in order; no keys for any other value. -/
def Json.keys : Json → List String
  | Json.obj kvs => kvs.map Prod.fst
  | _ => []

/-- Test `is<String>()`: the value is a string. -/
def Json.is_String : Json → Bool
  | Json.str _ => true
  | _ => false

/-- Conversion `as<String>()` of a string value.  Every call in the firmware is
guarded by `is<String>()`; for the other values, which the library would
serialise, the model gives the empty string. -/
def Json.as_String : Json → String
  | Json.str s => s
  | _ => ""

/-- Test `is<int>()`: a number stored as an integer that fits a 32-bit `int`. -/
def Json.is_int : Json → Bool
  | Json.int n => decide (-2147483648 ≤ n ∧ n ≤ 2147483647)
  | _ => false

/-- Conversion `as<int>()` of an integer value (0 when it does not fit).  Every
call in the firmware is guarded by `is<int>()`. -/
def Json.as_int : Json → Int
  | Json.int n => if -2147483648 ≤ n ∧ n ≤ 2147483647 then n else 0
  | _ => 0

/-- Test `is<bool>()`: the value is a boolean. -/
def Json.is_bool : Json → Bool
  | Json.bool _ => true
  | _ => false

/-- Conversion `as<bool>()`: a boolean is itself, a number is true when it is
not zero, `null` is false, any other value is true. -/
def Json.as_bool : Json → Bool
  | Json.bool b => b
  | Json.int n => decide (n ≠ 0)
  | Json.float num _ => decide (num ≠ 0)
  | Json.null => false
  | _ => true

/-- Test `is<uint8_t>()`: a number stored as an integer inside `[0, 255]`. -/
def Json.is_uint8 : Json → Bool
  | Json.int n => decide (0 ≤ n ∧ n ≤ 255)
  | _ => false

/-- What the firmware takes from its platform without fixing it in the source:
`str_to_u8` is ArduinoJson parsing the text of a string value as a `uint8_t`
(`as<uint8_t>()` of a string), `nan_u8` is the byte the target produces when a
floating-point value that is not finite is converted to `uint8_t`. -/
structure Platform where
  str_to_u8 : String → Nat
  nan_u8 : Nat

/-- Conversion `as<uint8_t>()`: an integer or a fractional number inside
`[0, 255]` is truncated to a byte and one outside gives 0, a boolean gives 1 or
0, a string is parsed by the library, everything else gives 0. -/
def Json.as_uint8 (pf : Platform) : Json → Nat
  | Json.int n => if 0 ≤ n ∧ n ≤ 255 then n.toNat else 0
  | Json.float num den =>
      if 0 ≤ num ∧ num ≤ 255 * ((den : Int) + 1) then (num / ((den : Int) + 1)).toNat else 0
  | Json.bool b => if b then 1 else 0
  | Json.str s => pf.str_to_u8 s % 256
  | _ => 0

/-- Conversion `as<JsonArray>()` seen through its elements: an array gives its
elements, any other value the empty (null) array. -/
def Json.as_array : Json → List Json
  | Json.arr xs => xs
  | _ => []

/-- Expression `colors[idx]` on a `JsonArray` with an `int` index: the element,
`null` when the index is outside the array. -/
def Json.at (xs : List Json) (idx : Int) : Json :=
  if 0 ≤ idx then xs.getD idx.toNat Json.null else Json.null

/-! ## Structs and persistent config -/

/-- Enum `LedType`. -/
inductive LedType where
  | WS2812
  | SK6812
deriving DecidableEq, Repr, Inhabited

/-- Struct `ColorRGBW`: four `uint8_t` channels, all 0 by default. -/
structure ColorRGBW where
  r : Nat := 0
  g : Nat := 0
  b : Nat := 0
  w : Nat := 0
deriving DecidableEq, Repr, Inhabited

/-- Struct `APIResponse`: `err` is empty and `result` is null by default. -/
structure APIResponse where
  err : String := ""
  result : Json := Json.null

/-- Software version, `VERSION`. -/
def VERSION : Nat := 103

/-- Macro `PLATFORM` of the ESP8266 build, the one whose WiFi and update
libraries the source calls. -/
def PLATFORM : String := "ESP8266"

/-- Default brightness, `DEFAULT_LED_BRIGHTNESS`. -/
def DEFAULT_LED_BRIGHTNESS : Int := 50

/-- The terminator of a C string. -/
def NUL : Char := Char.ofNat 0

/-- Size of the `wifi_ssid` field, `sizeof(Config::wifi_ssid)`. -/
def SSID_SIZE : Nat := 32

/-- Size of the `wifi_pass` field, `sizeof(Config::wifi_pass)`. -/
def PASS_SIZE : Nat := 64

/-- Size of the `name` field, `sizeof(Config::name)`. -/
def NAME_SIZE : Nat := 32

/-- Struct `Config`.  The three `char` arrays are lists of bytes that hold 32,
64 and 32 entries and lie one after the other in memory, `name` last. -/
structure Config where
  led_count : Int
  led_pin : Int
  led_type : LedType
  wifi_ssid : List Char
  wifi_pass : List Char
  name : List Char
deriving DecidableEq, Repr

/-- Library call `strncpy(dst, src, n)` seen as the new content of the `n` bytes
of `dst`: the bytes of `src` up to its terminator, at most `n` of them, then
NUL bytes up to `n`.  When `src` holds `n` bytes or more no NUL is written. -/
def strncpy (src : String) (n : Nat) : List Char :=
  let body := (src.data.takeWhile (fun c => c != NUL)).take n
  body ++ List.replicate (n - body.length) NUL

/-- Reading a C string (`String(const char*)`) from the bytes that start at
the pointer: everything before the first NUL. -/
def c_str (mem : List Char) : String :=
  String.mk (mem.takeWhile (fun c => c != NUL))

/-! ## Hardware readings and device state -/

/-- Encryption type of a scanned network, `WiFi.encryptionType(i)`. -/
inductive EncType where
  | none
  | auto
  | wep
  | tkip
  | ccmp
  | other
deriving DecidableEq, Repr, Inhabited

/-- One entry of the last network scan. -/
structure Network where
  bssid : String
  ssid : String
  rssi : Int
  enc : EncType
deriving Repr, Inhabited

/-- Readings the firmware takes from the chip, the clock and the WiFi stack.
They are inputs of the model: no function of the firmware writes them. -/
structure Hw where
  millis : Nat
  mac : String
  heap_free : Nat
  flash_size : Nat
  flash_speed : Nat
  flash_mode : Nat
  cpu_freq : Nat
  sdk_version : String
  core_version : String
  reset_reason : String
  reset_info : String
  wifi_status : Nat
  wifi_connected : Bool
  wifi_ssid : String
  wifi_bssid : String
  wifi_rssi : Int
  wifi_ip : String
  wifi_gateway : String
  wifi_subnet : String
  wifi_dns : String
  scan_complete : Int
  scan_network : Nat → Network

/-- Action handed to `timer.setTimeout`. -/
inductive Deferred where
  | nupnp_sync
  | ota_sync
  | esp_restart
  | led_emit_state
  | led_emit_config
  | wifi_reconnect (ssid pass : String)
  | wifi_disconnect
deriving DecidableEq, Repr

/-- Call into the network stack, the discovery responder, the discovery server
or the update server.  The two server calls of the sync tasks also record the
values that the guards `nupnp::is_syncing` and `ota::is_syncing` have at the
moment the call is made. -/
inductive ExtCall where
  | mdns_add_txt (key value : String)
  | wifi_scan_async
  | wifi_mode_sta
  | wifi_hostname (name : String)
  | wifi_set_auto_reconnect
  | wifi_soft_ap (name : String)
  | wifi_begin (ssid pass : String)
  | wifi_set_sleep_none
  | nupnp_post (url : String) (body : Json) (nupnp_is_syncing ota_is_syncing : Bool)
  | ota_update (url : String) (version : Nat) (nupnp_is_syncing ota_is_syncing : Bool)
deriving Repr

/-- Pixel array of `MAX_LED_COUNT` entries, read by index.  The model does not
bound the index: with `led_count <= MAX_LED_COUNT` no loop of the firmware
leaves the array. -/
abbrev Buffer := Nat → ColorRGBW

/-- The `Adafruit_NeoPixel` object behind `strip`: the arguments it was made
with, the colours last handed to it for each pixel and the frame last sent out
by `show()`.  The scaling the driver applies on its own is not modelled. -/
structure Strip where
  count : Int
  pin : Int
  rgbw : Bool
  pixels : Buffer
  shown : Buffer

/-- Globals of the firmware.
`config` is the copy of the persistent config in RAM, `eeprom` what
`config.save()` last wrote (`none` once the EEPROM has been erased),
`mem_after` the bytes that follow the `Config` object in memory up to the next
NUL: a read of a C string that finds no terminator inside `Config` runs on
into them.  `timers` lists the actions given to `timer.setTimeout` with their
delays in milliseconds (the fixed capacity of the timer is not modelled),
`events` the events passed to `emit_event`, `calls` the calls made to the
network stack and the discovery responder.  Debug traces are output only and
are not recorded. -/
structure State where
  hw : Hw
  config : Config
  eeprom : Option Config
  mem_after : List Char
  debug_enabled : Bool
  timers : List (Deferred × Nat)
  events : List (String × Json)
  calls : List ExtCall
  wifi_is_connected : Bool
  wifi_is_connected_since_start : Bool
  wifi_is_hotspot : Bool
  nupnp_is_syncing : Bool
  ota_is_syncing : Bool
  strip : Strip
  pixels_previous : Buffer
  pixels_current : Buffer
  pixels_target : Buffer
  colors_target : Buffer
  animating : Bool
  animating_start_ms : Int
  animating_delta_current : Int
  animating_delta_previous : Int
  initial_color : ColorRGBW
  state_on : Bool
  state_brightness : Int
  state_colors : List ColorRGBW

/-- Call `timer.setTimeout(fn, ms)`. -/
def setTimeout (fn : Deferred) (ms : Nat) (s : State) : State :=
  { s with timers := s.timers ++ [(fn, ms)] }

/-- Function `emit_event(event, data)`: the envelope goes to every listener. -/
def emit_event (event : String) (data : Json) (s : State) : State :=
  { s with events := s.events ++ [(event, data)] }

/-- Call `config.save()`: the RAM copy is written to the EEPROM. -/
def config_save (s : State) : State :=
  { s with eeprom := some s.config }

/-- For loop `for (i = 0; i < n; i++) a[i] = g(i)` over a pixel array. -/
def write_loop (g : Nat → ColorRGBW) : Nat → Buffer → Buffer
  | 0, a => a
  | k + 1, a => Function.update (write_loop g k a) k (g k)

/-! ## System -/

namespace sys

/-- Function `sys::get_device_mac`: the MAC address in upper case. -/
def get_device_mac (s : State) : String :=
  s.hw.mac.toUpper

/-- Function `sys::get_device_name`: `Luxio-` and the last six characters of the
MAC address without its colons. -/
def get_device_name (s : State) : String :=
  let mac := (get_device_mac s).data.filter (fun c => c != ':')
  "Luxio-" ++ String.mk (if 6 ≤ mac.length then mac.drop (mac.length - 6) else [])

/-- Function `sys::get_id`. -/
def get_id (s : State) : String :=
  get_device_mac s

/-- Function `sys::get_name`: `config->name` read as a C string. -/
def get_name (s : State) : String :=
  c_str (s.config.name ++ s.mem_after)

/-- Function `sys::get_config`. -/
def get_config (s : State) : Json :=
  Json.null.set "name" (Json.str (get_name s))

/-- Function `sys::emit_config`. -/
def emit_config (s : State) : State :=
  emit_event "system.config" (get_config s) s

/-- Function `sys::set_name`. -/
def set_name (name : String) (s : State) : State :=
  let s := { s with config := { s.config with name := strncpy name NAME_SIZE } }
  let s := config_save s
  let s := { s with calls := s.calls ++ [ExtCall.mdns_add_txt "name" (get_name s)] }
  let s := setTimeout Deferred.nupnp_sync 1000 s
  emit_config s

/-- Function `sys::restart`. -/
def restart (s : State) : State :=
  setTimeout Deferred.esp_restart 1000 s

/-- Function `sys::factory_reset`: every byte of the EEPROM is set to 0. -/
def factory_reset (s : State) : State :=
  restart { s with eeprom := none }

/-- Function `sys::enable_debug`. -/
def enable_debug (s : State) : State :=
  { s with debug_enabled := true }

/-- Function `sys::disable_debug`. -/
def disable_debug (s : State) : State :=
  { s with debug_enabled := false }

/-- Function `sys::get_state`. -/
def get_state (s : State) : Json :=
  let r := Json.null
  let r := r.set "id" (Json.str (get_id s))
  let r := r.set "version" (Json.int VERSION)
  let r := r.set "platform" (Json.str PLATFORM)
  let r := r.set "uptime" (Json.int (s.hw.millis / 1000 : Nat))
  let r := r.set "heap_free" (Json.int s.hw.heap_free)
  let r := r.set "flash_size" (Json.int s.hw.flash_size)
  let r := r.set "flash_speed" (Json.int s.hw.flash_speed)
  let r := r.set "flash_mode" (Json.int s.hw.flash_mode)
  let r := r.set "cpu_freq" (Json.int s.hw.cpu_freq)
  let r := r.set "sdk_version" (Json.str s.hw.sdk_version)
  let r := r.set "core_version" (Json.str s.hw.core_version)
  let r := r.set "reset_reason" (Json.str s.hw.reset_reason)
  r.set "reset_info" (Json.str s.hw.reset_info)

namespace api

/-- Handler `sys::api::ping`. -/
def ping (_params : Json) (s : State) : APIResponse × State :=
  ({ result := Json.str "pong" }, s)

/-- Handler `sys::api::get_config`. -/
def get_config (_params : Json) (s : State) : APIResponse × State :=
  ({ result := sys.get_config s }, s)

/-- Handler `sys::api::get_state`. -/
def get_state (_params : Json) (s : State) : APIResponse × State :=
  ({ result := sys.get_state s }, s)

/-- Handler `sys::api::get_name`. -/
def get_name (_params : Json) (s : State) : APIResponse × State :=
  ({ result := Json.str (sys.get_name s) }, s)

/-- Handler `sys::api::set_name`. -/
def set_name (params : Json) (s : State) : APIResponse × State :=
  if !(params.get "name").is_String then
    ({ err := "invalid_name" }, s)
  else
    let name := (params.get "name").as_String
    if name.length < 1 ∨ name.length > NAME_SIZE then
      ({ err := "name_out_of_range" }, s)
    else
      ({}, sys.set_name name s)

/-- Handler `sys::api::test_echo`. -/
def test_echo (params : Json) (s : State) : APIResponse × State :=
  ({ result := params }, s)

/-- Handler `sys::api::test_error`. -/
def test_error (_params : Json) (s : State) : APIResponse × State :=
  ({ err := "test_error" }, s)

/-- Handler `sys::api::restart`. -/
def restart (_params : Json) (s : State) : APIResponse × State :=
  ({}, sys.restart s)

/-- Handler `sys::api::factory_reset`. -/
def factory_reset (_params : Json) (s : State) : APIResponse × State :=
  ({}, sys.factory_reset s)

/-- Handler `sys::api::enable_debug`. -/
def enable_debug (_params : Json) (s : State) : APIResponse × State :=
  ({}, sys.enable_debug s)

/-- Handler `sys::api::disable_debug`. -/
def disable_debug (_params : Json) (s : State) : APIResponse × State :=
  ({}, sys.disable_debug s)

end api

end sys

/-! ## WiFi -/

namespace wifi

/-- Text the firmware reports for an encryption type. -/
def encryption_name : EncType → String
  | EncType.none => "none"
  | EncType.auto => "auto"
  | EncType.wep => "wep"
  | EncType.tkip => "tkip"
  | EncType.ccmp => "ccmp"
  | EncType.other => "unknown"

/-- Function `wifi::get_networks`: one object for each network of the last scan. -/
def get_networks (s : State) : Json :=
  let networksFound : Int := if s.hw.scan_complete < 0 then 0 else s.hw.scan_complete
  Json.arr ((List.range networksFound.toNat).map (fun i =>
    let n := s.hw.scan_network i
    let network := Json.null
    let network := network.set "bssid" (Json.str n.bssid)
    let network := network.set "ssid" (Json.str n.ssid)
    let network := network.set "rssi" (Json.int n.rssi)
    network.set "encryption" (Json.str (encryption_name n.enc))))

/-- Function `wifi::get_state`. -/
def get_state (s : State) : Json :=
  let r := Json.null
  let r := r.set "status" (Json.int s.hw.wifi_status)
  let r := r.set "connected" (Json.bool s.hw.wifi_connected)
  let r := r.set "mac" (Json.str s.hw.mac)
  if (r.get "connected").as_bool then
    let r := r.set "ssid" (Json.str s.hw.wifi_ssid)
    let r := r.set "bssid" (Json.str s.hw.wifi_bssid)
    let r := r.set "rssi" (Json.int s.hw.wifi_rssi)
    let r := r.set "ip" (Json.str s.hw.wifi_ip)
    let r := r.set "gateway" (Json.str s.hw.wifi_gateway)
    let r := r.set "subnet" (Json.str s.hw.wifi_subnet)
    r.set "dns" (Json.str s.hw.wifi_dns)
  else
    r

/-- Function `wifi::get_config`: `config->wifi_ssid` read as a C string; the
fields `wifi_pass` and `name` follow it in memory. -/
def get_config (s : State) : Json :=
  Json.null.set "ssid"
    (Json.str (c_str (s.config.wifi_ssid ++ s.config.wifi_pass ++ s.config.name ++ s.mem_after)))

/-- Function `wifi::emit_config`. -/
def emit_config (s : State) : State :=
  emit_event "wifi.config" (get_config s) s

namespace api

/-- Handler `wifi::api::get_config`. -/
def get_config (_params : Json) (s : State) : APIResponse × State :=
  ({ result := wifi.get_config s }, s)

/-- Handler `wifi::api::get_state`. -/
def get_state (_params : Json) (s : State) : APIResponse × State :=
  ({ result := wifi.get_state s }, s)

/-- Handler `wifi::api::scan_networks`: the scan is started in the network
stack, its callback runs later. -/
def scan_networks (_params : Json) (s : State) : APIResponse × State :=
  ({}, { s with calls := s.calls ++ [ExtCall.wifi_scan_async] })

/-- Handler `wifi::api::get_networks`. -/
def get_networks (_params : Json) (s : State) : APIResponse × State :=
  ({ result := wifi.get_networks s }, s)

/-- Handler `wifi::api::connect`. -/
def connect (params : Json) (s : State) : APIResponse × State :=
  if !(params.get "ssid").is_String then
    ({ err := "missing_ssid" }, s)
  else if !(params.get "pass").is_String then
    ({ err := "missing_pass" }, s)
  else
    let ssid := (params.get "ssid").as_String
    let pass := (params.get "pass").as_String
    let s := { s with config := { s.config with wifi_ssid := strncpy ssid SSID_SIZE } }
    let s := { s with config := { s.config with wifi_pass := strncpy pass PASS_SIZE } }
    let s := config_save s
    let s := wifi.emit_config s
    let s := setTimeout (Deferred.wifi_reconnect ssid pass) 500 s
    ({}, s)

/-- Handler `wifi::api::disconnect`. -/
def disconnect (_params : Json) (s : State) : APIResponse × State :=
  let s := { s with config := { s.config with wifi_ssid := List.replicate SSID_SIZE NUL } }
  let s := { s with config := { s.config with wifi_pass := List.replicate PASS_SIZE NUL } }
  let s := config_save s
  let s := setTimeout Deferred.wifi_disconnect 500 s
  ({}, s)

end api

end wifi

/-! ## Binary floating point

The `float` and `double` arithmetic of the LED code, with every operation
rounded to the nearest value of the format, ties to the even significand
(IEEE 754 binary32 with 24 significant bits, binary64 with 53).  The range of
the exponent is not modelled: the values of the LED code stay far inside it. -/

/-- A finite floating-point value, `m * 2 ^ e`. -/
structure Flt where
  m : Int
  e : Int
deriving DecidableEq, Repr, Inhabited

/-- Number of binary digits of `n`, counted with `fuel` halvings at most. -/
def bit_length_aux : Nat → Nat → Nat
  | 0, _ => 0
  | fuel + 1, n => if n = 0 then 0 else bit_length_aux fuel (n / 2) + 1

/-- Number of binary digits of `n` (0 for 0). -/
def bit_length (n : Nat) : Nat :=
  bit_length_aux n n

/-- Quotient `a / b` rounded to the nearest integer, a tie to the even one. -/
def div_round_even (a b : Nat) : Nat :=
  let q := a / b
  let r := a % b
  if 2 * r < b then q else if b < 2 * r then q + 1 else if q % 2 = 0 then q else q + 1

namespace Flt

/-- The value 0. -/
def zero : Flt := ⟨0, 0⟩

/-- Rounding of an exact value to `p` significant bits. -/
def round (p : Nat) (x : Flt) : Flt :=
  let a := x.m.natAbs
  let k := bit_length a - p
  if a = 0 then zero
  else if k = 0 then x
  else ⟨x.m.sign * (div_round_even a (2 ^ k) : Nat), x.e + (k : Int)⟩

/-- Conversion of an integer to the format. -/
def ofInt (p : Nat) (n : Int) : Flt :=
  round p ⟨n, 0⟩

/-- Product, rounded. -/
def mul (p : Nat) (x y : Flt) : Flt :=
  round p ⟨x.m * y.m, x.e + y.e⟩

/-- Sum, rounded. -/
def add (p : Nat) (x y : Flt) : Flt :=
  let e := min x.e y.e
  round p ⟨x.m * 2 ^ (x.e - e).toNat + y.m * 2 ^ (y.e - e).toNat, e⟩

/-- Difference, rounded. -/
def sub (p : Nat) (x y : Flt) : Flt :=
  add p x ⟨-y.m, y.e⟩

/-- Quotient, rounded, for a divisor that is not 0.  The quotient of the
significands is scaled by a power of two that leaves it `p` bits before the
point, then rounded to an integer.  (For a divisor 0, where the C result is
not finite, the value is 0; callers test the divisor first.) -/
def div (p : Nat) (x y : Flt) : Flt :=
  let a := x.m.natAbs
  let b := y.m.natAbs
  if a = 0 ∨ b = 0 then zero
  else
    let sh0 : Int := (p : Int) - 1 - ((bit_length a : Int) - (bit_length b : Int))
    let sh : Int :=
      if 2 ^ (p - 1) ≤ (a * 2 ^ sh0.toNat) / (b * 2 ^ (-sh0).toNat) then sh0 else sh0 + 1
    ⟨x.m.sign * y.m.sign * (div_round_even (a * 2 ^ sh.toNat) (b * 2 ^ (-sh).toNat) : Nat),
      x.e - y.e - sh⟩

/-- Largest integer not above the value. -/
def floor (x : Flt) : Int :=
  if 0 ≤ x.e then x.m * 2 ^ x.e.toNat else x.m / 2 ^ (-x.e).toNat

/-- Smallest integer not below the value. -/
def ceil (x : Flt) : Int :=
  -floor ⟨-x.m, x.e⟩

/-- Integer part of the value (conversion to an integer type in C). -/
def trunc (x : Flt) : Int :=
  if 0 ≤ x.m then floor x else ceil x

/-- Conversion to `uint8_t` of a value whose integer part lies in `[0, 255]`
(outside that range C leaves the result open; the model wraps it). -/
def to_u8 (x : Flt) : Nat :=
  (trunc x % 256).toNat

end Flt

/-! ## LED -/

namespace led

/-- Constant `ANIMATE_SPEED`, in milliseconds. -/
def ANIMATE_SPEED : Int := 350

/-- Constant `MAX_LED_COUNT`, the size of the four pixel arrays. -/
def MAX_LED_COUNT : Int := 512

/-- Conversion of the `unsigned long` clock reading to `int`. -/
def to_int32 (n : Nat) : Int :=
  let m := n % 4294967296
  if m < 2147483648 then (m : Int) else (m : Int) - 4294967296

/-- One channel mixed with the brightness:
`(double)c * (double)state_brightness / (double)255`, stored in a `uint8_t`. -/
def mix_channel (c : Nat) (brightness : Int) : Nat :=
  (Flt.div 53 (Flt.mul 53 (Flt.ofInt 53 c) (Flt.ofInt 53 brightness)) (Flt.ofInt 53 255)).to_u8

/-- A colour mixed with the brightness, channel by channel. -/
def mix_color (c : ColorRGBW) (brightness : Int) : ColorRGBW :=
  { r := mix_channel c.r brightness
    g := mix_channel c.g brightness
    b := mix_channel c.b brightness
    w := mix_channel c.w brightness }

/-- Function `led::get_count`. -/
def get_count (s : State) : Int :=
  s.config.led_count

/-- Function `led::get_pin`. -/
def get_pin (s : State) : Int :=
  s.config.led_pin

/-- Function `led::get_type`. -/
def get_type (s : State) : String :=
  match s.config.led_type with
  | LedType.SK6812 => "SK6812"
  | LedType.WS2812 => "WS2812"

/-- Function `led::animate`. -/
def animate (s : State) : State :=
  let n := s.config.led_count.toNat
  let s := { s with pixels_previous := write_loop (fun i => s.pixels_current i) n s.pixels_previous }
  let target : Nat → ColorRGBW := fun i =>
    if s.state_on then mix_color (s.colors_target i) s.state_brightness
    else { r := 0, g := 0, b := 0, w := 0 }
  let s := { s with pixels_target := write_loop target n s.pixels_target }
  { s with animating := true, animating_start_ms := to_int32 s.hw.millis }

/-- Function `led::set_color`. -/
def set_color (color : ColorRGBW) (s : State) : State :=
  let s := { s with state_on := true, state_colors := [color] }
  let s := { s with colors_target := write_loop (fun _ => color) (get_count s).toNat s.colors_target }
  let s := animate s
  setTimeout Deferred.led_emit_state 1 s

/-- Function `led::set_gradient`. -/
def set_gradient (s : State) : State :=
  let s := { s with state_on := true }
  let s := animate s
  setTimeout Deferred.led_emit_state 1 s

/-- Calls `strip->clear(); strip->show();`. -/
def strip_clear_show (s : State) : State :=
  { s with strip := { s.strip with pixels := fun _ => {}, shown := fun _ => {} } }

/-- Function `led::setup`: a new strip object is made, filled with black and
shown, then the engine animates to the initial colour of the strip type. -/
def setup (s : State) : State :=
  let led_count := get_count s
  let led_pin := get_pin s
  let rgbw := match s.config.led_type with
    | LedType.SK6812 => true
    | LedType.WS2812 => false
  let initial : ColorRGBW := match s.config.led_type with
    | LedType.SK6812 => { r := 0, g := 0, b := 0, w := 255 }
    | LedType.WS2812 => { r := 255, g := 255, b := 255, w := 0 }
  let s := { s with initial_color := initial }
  let s := { s with strip :=
    { count := led_count, pin := led_pin, rgbw := rgbw, pixels := fun _ => {}, shown := fun _ => {} } }
  set_color s.initial_color s

/-- Function `led::set_count`. -/
def set_count (count : Int) (s : State) : State :=
  let s := { s with config := { s.config with led_count := count } }
  let s := config_save s
  let s := strip_clear_show s
  let s := setup s
  let s := setTimeout Deferred.nupnp_sync 1000 s
  setTimeout Deferred.led_emit_config 1 s

/-- Function `led::set_on`. -/
def set_on (on_ : Bool) (s : State) : State :=
  let s := { s with state_on := on_ }
  let s := animate s
  setTimeout Deferred.led_emit_state 1 s

/-- Function `led::set_brightness`. -/
def set_brightness (brightness : Nat) (s : State) : State :=
  let s := { s with state_on := true, state_brightness := brightness }
  let s := animate s
  setTimeout Deferred.led_emit_state 1 s

/-- Function `led::set_pin`. -/
def set_pin (pin : Nat) (s : State) : State :=
  let s := { s with config := { s.config with led_pin := pin } }
  let s := config_save s
  let s := strip_clear_show s
  let s := setup s
  setTimeout Deferred.led_emit_config 1 s

/-- Function `led::set_type`: both branches that know the type return before
the line that would schedule the config event. -/
def set_type (type : String) (s : State) : Bool × State :=
  if type = "SK6812" then
    let s := { s with config := { s.config with led_type := LedType.SK6812 } }
    let s := config_save s
    let s := strip_clear_show s
    (true, setup s)
  else if type = "WS2812" then
    let s := { s with config := { s.config with led_type := LedType.WS2812 } }
    let s := config_save s
    let s := strip_clear_show s
    (true, setup s)
  else
    (false, s)

/-- One colour as the object `{r, g, b, w}` of `led::get_state`. -/
def color_json (c : ColorRGBW) : Json :=
  let pixel := Json.null
  let pixel := pixel.set "r" (Json.int c.r)
  let pixel := pixel.set "g" (Json.int c.g)
  let pixel := pixel.set "b" (Json.int c.b)
  pixel.set "w" (Json.int c.w)

/-- Function `led::get_state`. -/
def get_state (s : State) : Json :=
  let r := Json.null
  let r := r.set "on" (Json.bool s.state_on)
  let r := r.set "brightness" (Json.int s.state_brightness)
  r.set "colors" (Json.arr (s.state_colors.map color_json))

/-- Function `led::get_config`. -/
def get_config (s : State) : Json :=
  let r := Json.null
  let r := r.set "count" (Json.int (get_count s))
  let r := r.set "pin" (Json.int (get_pin s))
  r.set "type" (Json.str (get_type s))

/-- A colour read from the object `{r, g, b, w}` of a request, each channel by
`as<uint8_t>()`. -/
def decode_color (pf : Platform) (color : Json) : ColorRGBW :=
  { r := (color.get "r").as_uint8 pf
    g := (color.get "g").as_uint8 pf
    b := (color.get "b").as_uint8 pf
    w := (color.get "w").as_uint8 pf }

/-- One channel of the gradient,
`color1 + (color2 - color1) * (t * (numColors - 1) - idx1)` in `float`, stored
in a `uint8_t`; `frac` is the value of `t * (numColors - 1) - idx1`. -/
def interpolate_channel (color1 color2 : Nat) (frac : Flt) : Nat :=
  (Flt.add 24 (Flt.ofInt 24 color1)
    (Flt.mul 24 (Flt.ofInt 24 ((color2 : Int) - (color1 : Int))) frac)).to_u8

/-- Body of the gradient loop of `led::api::set_gradient` for pixel `i`: the
colour written to `colors_target[i]`.  With `count - 1 = 0` the quotient
`(float)i / (count - 1)` is not finite and neither is any channel, which the
conversion to `uint8_t` turns into the byte of the platform. -/
def gradient_color (pf : Platform) (colors : List Json) (count : Int) (i : Nat) : ColorRGBW :=
  let numColors : Int := colors.length
  if count - 1 = 0 then
    { r := pf.nan_u8 % 256, g := pf.nan_u8 % 256, b := pf.nan_u8 % 256, w := pf.nan_u8 % 256 }
  else
    let t := Flt.div 24 (Flt.ofInt 24 i) (Flt.ofInt 24 (count - 1))
    let pos := Flt.mul 24 t (Flt.ofInt 24 (numColors - 1))
    let idx1 := pos.floor
    let idx2 := pos.ceil
    let color1 := decode_color pf (Json.at colors idx1)
    let color2 := decode_color pf (Json.at colors idx2)
    let frac := Flt.sub 24 pos (Flt.ofInt 24 idx1)
    { r := interpolate_channel color1.r color2.r frac
      g := interpolate_channel color1.g color2.g frac
      b := interpolate_channel color1.b color2.b frac
      w := interpolate_channel color1.w color2.w frac }

namespace api

/-- Handler `led::api::get_state`. -/
def get_state (_params : Json) (s : State) : APIResponse × State :=
  ({ result := led.get_state s }, s)

/-- Handler `led::api::get_config`. -/
def get_config (_params : Json) (s : State) : APIResponse × State :=
  ({ result := led.get_config s }, s)

/-- Handler `led::api::get_count`. -/
def get_count (_params : Json) (s : State) : APIResponse × State :=
  ({ result := Json.int (led.get_count s) }, s)

/-- Handler `led::api::set_count`. -/
def set_count (params : Json) (s : State) : APIResponse × State :=
  if !(params.get "count").is_int then
    ({ err := "invalid_count" }, s)
  else
    let count := (params.get "count").as_int
    if count < 1 ∨ count > MAX_LED_COUNT then
      ({ err := "count_out_of_range" }, s)
    else
      ({}, led.set_count count s)

/-- Handler `led::api::get_pin`. -/
def get_pin (_params : Json) (s : State) : APIResponse × State :=
  ({ result := Json.int (led.get_pin s) }, s)

/-- Handler `led::api::set_pin`. -/
def set_pin (pf : Platform) (params : Json) (s : State) : APIResponse × State :=
  if !(params.get "pin").is_int then
    ({ err := "invalid_pin" }, s)
  else
    let pin : Int := ((params.get "pin").as_uint8 pf : Nat)
    if pin < 0 ∨ pin > 255 then
      ({ err := "pin_out_of_range" }, s)
    else
      ({}, led.set_pin pin.toNat s)

/-- Handler `led::api::get_type`. -/
def get_type (_params : Json) (s : State) : APIResponse × State :=
  ({ result := Json.str (led.get_type s) }, s)

/-- Handler `led::api::set_type`. -/
def set_type (params : Json) (s : State) : APIResponse × State :=
  if !(params.get "type").is_String then
    ({ err := "invalid_type" }, s)
  else
    let type := (params.get "type").as_String
    let r := led.set_type type s
    if r.1 then ({}, r.2) else ({ err := "invalid_type" }, r.2)

/-- Handler `led::api::set_on`. -/
def set_on (params : Json) (s : State) : APIResponse × State :=
  if !(params.get "on").is_bool then
    ({ err := "missing_on" }, s)
  else
    ({}, led.set_on (params.get "on").as_bool s)

/-- Handler `led::api::set_color`. -/
def set_color (pf : Platform) (params : Json) (s : State) : APIResponse × State :=
  if !(params.get "r").is_int ∨ !(params.get "g").is_int ∨ !(params.get "b").is_int then
    ({ err := "invalid_color" }, s)
  else
    let target_color : ColorRGBW :=
      { r := (params.get "r").as_uint8 pf
        g := (params.get "g").as_uint8 pf
        b := (params.get "b").as_uint8 pf
        w := if (params.get "w").is_uint8 then (params.get "w").as_uint8 pf else 0 }
    ({}, led.set_color target_color s)

/-- Handler `led::api::set_gradient`. -/
def set_gradient (pf : Platform) (params : Json) (s : State) : APIResponse × State :=
  let colors := (params.get "colors").as_array
  if (colors.length : Int) < 1 ∨ (colors.length : Int) > led.get_count s then
    ({ err := "colors_out_of_range" }, s)
  else
    let s := { s with state_colors := colors.map (decode_color pf) }
    let gradient := gradient_color pf colors (led.get_count s)
    let s := { s with colors_target := write_loop gradient (led.get_count s).toNat s.colors_target }
    ({}, led.set_gradient s)

/-- Handler `led::api::set_brightness`. -/
def set_brightness (pf : Platform) (params : Json) (s : State) : APIResponse × State :=
  if !(params.get "brightness").is_int then
    ({ err := "invalid_brightness" }, s)
  else
    let brightness : Int := ((params.get "brightness").as_uint8 pf : Nat)
    if brightness < 10 ∨ brightness > 255 then
      ({ err := "brightness_out_of_range" }, s)
    else
      ({}, led.set_brightness brightness.toNat s)

/-- Handler `led::api::set_animation`. -/
def set_animation (_params : Json) (s : State) : APIResponse × State :=
  ({ err := "not_implemented" }, s)

end api

end led

/-! ## Dispatcher -/

/-- Function `get_full_state`. -/
def get_full_state (s : State) : Json :=
  let state := Json.null
  let state := state.set2 "system" "state" (sys.get_state s)
  let state := state.set2 "system" "config" (sys.get_config s)
  let state := state.set2 "wifi" "state" (wifi.get_state s)
  let state := state.set2 "wifi" "config" (wifi.get_config s)
  let state := state.set2 "led" "state" (led.get_state s)
  state.set2 "led" "config" (led.get_config s)

/-- First half of `handle_request`: the handler `fn` chosen for the method name,
applied to the params. -/
def call_method (pf : Platform) (method : String) (params : Json) (s : State) :
    APIResponse × State :=
  if method = "wifi.get_config" then wifi.api.get_config params s
  else if method = "wifi.get_state" then wifi.api.get_state params s
  else if method = "wifi.get_networks" then wifi.api.get_networks params s
  else if method = "wifi.scan_networks" then wifi.api.scan_networks params s
  else if method = "wifi.connect" then wifi.api.connect params s
  else if method = "wifi.disconnect" then wifi.api.disconnect params s
  else if method = "led.get_config" then led.api.get_config params s
  else if method = "led.get_state" then led.api.get_state params s
  else if method = "led.get_count" then led.api.get_count params s
  else if method = "led.set_count" then led.api.set_count params s
  else if method = "led.get_pin" then led.api.get_pin params s
  else if method = "led.set_pin" then led.api.set_pin pf params s
  else if method = "led.get_type" then led.api.get_type params s
  else if method = "led.set_type" then led.api.set_type params s
  else if method = "led.set_on" then led.api.set_on params s
  else if method = "led.set_color" then led.api.set_color pf params s
  else if method = "led.set_gradient" then led.api.set_gradient pf params s
  else if method = "led.set_brightness" then led.api.set_brightness pf params s
  else if method = "led.set_animation" then led.api.set_animation params s
  else if method = "system.ping" then sys.api.ping params s
  else if method = "system.test_error" then sys.api.test_error params s
  else if method = "system.test_echo" then sys.api.test_echo params s
  else if method = "system.get_config" then sys.api.get_config params s
  else if method = "system.get_state" then sys.api.get_state params s
  else if method = "system.get_name" then sys.api.get_name params s
  else if method = "system.set_name" then sys.api.set_name params s
  else if method = "system.restart" then sys.api.restart params s
  else if method = "system.factory_reset" then sys.api.factory_reset params s
  else if method = "system.enable_debug" then sys.api.enable_debug params s
  else if method = "system.disable_debug" then sys.api.disable_debug params s
  else if method = "get_full_state" then ({ result := get_full_state s }, s)
  else ({ err := "unknown_method" }, s)

/-- Second half of `handle_request`: the response document made from what the
handler returned. -/
def wrap_response (response : APIResponse) : Json :=
  if response.err.length = 0 then
    Json.null.set "result" response.result
  else
    Json.null.set "error" (Json.str response.err)

/-- Function `handle_request`.  The request id is used for the debug trace only. -/
def handle_request (pf : Platform) (_req_id : Int) (method : String) (params : Json)
    (s : State) : Json × State :=
  let r := call_method pf method params s
  (wrap_response r.1, r.2)

/-- The method names that `handle_request` compares against. -/
def registered_methods : List String :=
  [ "wifi.get_config", "wifi.get_state", "wifi.get_networks", "wifi.scan_networks",
    "wifi.connect", "wifi.disconnect", "led.get_config", "led.get_state", "led.get_count",
    "led.set_count", "led.get_pin", "led.set_pin", "led.get_type", "led.set_type",
    "led.set_on", "led.set_color", "led.set_gradient", "led.set_brightness",
    "led.set_animation", "system.ping", "system.test_error", "system.test_echo",
    "system.get_config", "system.get_state", "system.get_name", "system.set_name",
    "system.restart", "system.factory_reset", "system.enable_debug",
    "system.disable_debug", "get_full_state" ]

/-! ## Serial transport -/

namespace serial

/-- Function `serial::loop` for one line that parsed as the JSON value `req`:
the line written back to the serial port (`none` when the request is dropped
with a debug trace) and the new state. -/
def handle_line (pf : Platform) (req : Json) (s : State) : Option Json × State :=
  if !(req.get "id").is_int then (none, s)
  else if !(req.get "method").is_String then (none, s)
  else if !(match req.get "params" with | Json.obj _ => true | _ => false) then (none, s)
  else
    let r := handle_request pf (req.get "id").as_int (req.get "method").as_String
      (req.get "params") s
    (some (r.1.set "id" (req.get "id")), r.2)

end serial

/-! ## Network setup -/

namespace wifi

/-- Function `wifi::setup`, up to the registration of the three event handlers,
which only run on later events of the network stack: the calls made to the
stack and the hotspot flag. -/
def setup (s : State) : State :=
  let s := { s with calls := s.calls ++
    [ExtCall.wifi_mode_sta, ExtCall.wifi_hostname (sys.get_device_name s),
      ExtCall.wifi_set_auto_reconnect] }
  let ssid := c_str (s.config.wifi_ssid ++ s.config.wifi_pass ++ s.config.name ++ s.mem_after)
  let pass := c_str (s.config.wifi_pass ++ s.config.name ++ s.mem_after)
  if ssid.length = 0 then
    let s := { s with calls := s.calls ++ [ExtCall.wifi_soft_ap (sys.get_device_name s)] }
    { s with wifi_is_hotspot := true }
  else
    { s with calls := s.calls ++ [ExtCall.wifi_begin ssid pass, ExtCall.wifi_set_sleep_none] }

end wifi

/-! ## Animation tick -/

namespace Flt

/-- Conversion to `int` of a value whose integer part fits 32 bits (outside
that range C leaves the result open; the model wraps it). -/
def to_i32 (x : Flt) : Int :=
  (trunc x + 2147483648) % 4294967296 - 2147483648

/-- The rational number that a floating-point value stands for. -/
def val (x : Flt) : ℚ :=
  (x.m : ℚ) * (2 : ℚ) ^ x.e

end Flt

namespace led

/-- Expression `millis() - animating_start_ms` of `animate_step`: a difference
of `unsigned long`, taken modulo `2 ^ 32`. -/
def elapsed (s : State) : Nat :=
  (((s.hw.millis : Int) - s.animating_start_ms) % 4294967296).toNat

/-- First line of `animate_step`, for the elapsed time `d`:
`((double)d / (double)ANIMATE_SPEED) * 255` stored in an `int`. -/
def progress (d : Nat) : Int :=
  (Flt.mul 53 (Flt.div 53 (Flt.ofInt 53 d) (Flt.ofInt 53 ANIMATE_SPEED)) (Flt.ofInt 53 255)).to_i32

/-- One channel of the interpolation of `animate_step`, with
`deltad = (double)delta / (double)255`:
`(double)previous * (double)(1 - deltad) + (double)target * deltad`, stored in
a `uint8_t`. -/
def step_channel (previous target : Nat) (delta : Int) : Nat :=
  let deltad := Flt.div 53 (Flt.ofInt 53 delta) (Flt.ofInt 53 255)
  (Flt.add 53
    (Flt.mul 53 (Flt.ofInt 53 previous) (Flt.sub 53 (Flt.ofInt 53 1) deltad))
    (Flt.mul 53 (Flt.ofInt 53 target) deltad)).to_u8

/-- The interpolated colour of one pixel, channel by channel. -/
def step_color (previous target : ColorRGBW) (delta : Int) : ColorRGBW :=
  { r := step_channel previous.r target.r delta
    g := step_channel previous.g target.g delta
    b := step_channel previous.b target.b delta
    w := step_channel previous.w target.w delta }

/-- Last loop of `animate_step` and `strip->show()`: the current colours of the
first `get_count()` pixels go to the strip, which ignores an index at or above
its own length, and the frame is sent out. -/
def strip_write_show (s : State) : State :=
  let pixels := write_loop
    (fun i => if (i : Int) < s.strip.count then s.pixels_current i else s.strip.pixels i)
    (get_count s).toNat s.strip.pixels
  { s with strip := { s.strip with pixels := pixels, shown := pixels } }

/-- Function `led::animate_step`. -/
def animate_step (s : State) : State :=
  let s := { s with animating_delta_current := progress (elapsed s) }
  if s.animating_delta_previous ≠ s.animating_delta_current then
    let s := { s with animating_delta_previous := s.animating_delta_current }
    if s.animating_delta_current ≥ 255 then
      let s := { s with animating := false, animating_start_ms := 0,
                        animating_delta_previous := 0, animating_delta_current := 0 }
      let target : Nat → ColorRGBW := fun i => s.pixels_target i
      let s := { s with pixels_current := write_loop target (get_count s).toNat s.pixels_current }
      strip_write_show s
    else
      let mixed : Nat → ColorRGBW := fun i =>
        step_color (s.pixels_previous i) (s.pixels_target i) s.animating_delta_current
      let s := { s with pixels_current := write_loop mixed (get_count s).toNat s.pixels_current }
      strip_write_show s
  else
    s

/-- Function `led::loop`. -/
def loop (s : State) : State :=
  if s.animating then animate_step s else s

/-- The tick of the engine at the clock reading `now`: `led::loop` run when
`millis()` returns `now`. -/
def tick (now : Nat) (s : State) : State :=
  loop { s with hw := { s.hw with millis := now } }

/-- Successive runs of `led::loop` at the clock readings `nows`, with no command
in between. -/
def ticks (nows : List Nat) (s : State) : State :=
  nows.foldl (fun st now => tick now st) s

end led

/-! ## Background sync -/

namespace nupnp

/-- Constant `nupnp::URL`. -/
def URL : String := "http://nupnp.luxio.lighting/"

/-- The descriptor that `nupnp::sync` posts. -/
def body (s : State) : Json :=
  let b := Json.null
  let b := b.set "id" (Json.str (sys.get_id s))
  let b := b.set "platform" (Json.str PLATFORM)
  let b := b.set "address" (Json.str s.hw.wifi_ip)
  let b := b.set "name" (Json.str (sys.get_name s))
  let b := b.set "version" (Json.int VERSION)
  let b := b.set "pixels" (Json.int (led.get_count s))
  b.set "wifi_ssid" (Json.str s.hw.wifi_ssid)

/-- Function `nupnp::sync`.  The status code of the POST is only traced. -/
def sync (s : State) : State :=
  if s.wifi_is_connected = false then s
  else if s.nupnp_is_syncing = true then s
  else if s.ota_is_syncing = true then s
  else
    let s := { s with nupnp_is_syncing := true }
    let s := { s with calls := s.calls ++
      [ExtCall.nupnp_post URL (body s) s.nupnp_is_syncing s.ota_is_syncing] }
    { s with nupnp_is_syncing := false }

end nupnp

namespace ota

/-- Constant `ota::URL`. -/
def URL (s : State) : String :=
  "http://ota.luxio.lighting/?platform=" ++ PLATFORM ++ "&id=" ++ sys.get_id s

/-- Function `ota::sync`, for an update call that returns (`failed` or
`no update`; an applied update restarts the device inside the call).  The
outcome is only traced. -/
def sync (s : State) : State :=
  if s.wifi_is_connected = false then s
  else if s.nupnp_is_syncing = true then s
  else if s.ota_is_syncing = true then s
  else
    let s := { s with ota_is_syncing := true }
    let s := { s with calls := s.calls ++
      [ExtCall.ota_update (URL s) VERSION s.nupnp_is_syncing s.ota_is_syncing] }
    { s with ota_is_syncing := false }

end ota

/-! ## Concrete inputs -/

/-- Readings of a device that has been up for five seconds and is not connected. -/
def sample_hw : Hw :=
  { millis := 5000
    mac := "AA:BB:CC:DD:EE:FF"
    heap_free := 40000
    flash_size := 4194304
    flash_speed := 40000000
    flash_mode := 2
    cpu_freq := 80
    sdk_version := "2.2.2"
    core_version := "3.1.2"
    reset_reason := "Power On"
    reset_info := ""
    wifi_status := 0
    wifi_connected := false
    wifi_ssid := ""
    wifi_bssid := ""
    wifi_rssi := 0
    wifi_ip := ""
    wifi_gateway := ""
    wifi_subnet := ""
    wifi_dns := ""
    scan_complete := 0
    scan_network := fun _ => default }

/-- Content of the `name` field for the name `Luxio-DDEEFF`: 12 bytes and 20
terminators. -/
def sample_name : List Char :=
  "Luxio-DDEEFF".data ++ List.replicate 20 NUL

/-- A device with the default config (60 LEDs, pin 0, SK6812, no network), its
strip at rest on the initial colour at brightness 50. -/
def sample_state : State :=
  { hw := sample_hw
    config :=
      { led_count := 60, led_pin := 0, led_type := LedType.SK6812
        wifi_ssid := List.replicate 32 NUL, wifi_pass := List.replicate 64 NUL
        name := sample_name }
    eeprom := some
      { led_count := 60, led_pin := 0, led_type := LedType.SK6812
        wifi_ssid := List.replicate 32 NUL, wifi_pass := List.replicate 64 NUL
        name := sample_name }
    mem_after := []
    debug_enabled := true
    timers := []
    events := []
    calls := []
    wifi_is_connected := false
    wifi_is_connected_since_start := false
    wifi_is_hotspot := true
    nupnp_is_syncing := false
    ota_is_syncing := false
    strip := { count := 60, pin := 0, rgbw := true
               pixels := fun i => if i < 60 then { w := 50 } else {}
               shown := fun i => if i < 60 then { w := 50 } else {} }
    pixels_previous := fun _ => {}
    pixels_current := fun i => if i < 60 then { w := 50 } else {}
    pixels_target := fun i => if i < 60 then { w := 50 } else {}
    colors_target := fun i => if i < 60 then { w := 255 } else {}
    animating := false
    animating_start_ms := 0
    animating_delta_current := 0
    animating_delta_previous := 0
    initial_color := { w := 255 }
    state_on := true
    state_brightness := 50
    state_colors := [{ w := 255 }] }

/-- A platform whose string parser gives 0 and whose conversion of a value
that is not finite gives 255. -/
def sample_platform : Platform :=
  { str_to_u8 := fun _ => 0, nan_u8 := 255 }

/-- A device part-way through a fade of its 60 LEDs from red to the initial
colour: the session is active and `pixels_current` holds a mixed colour. -/
def fading_state : State :=
  { sample_state with
    pixels_previous := fun i => if i < 60 then { r := 50 } else {}
    pixels_current := fun i => if i < 60 then { r := 30, w := 20 } else {}
    animating := true
    animating_start_ms := 4860
    animating_delta_current := 102
    animating_delta_previous := 102 }

/-- A name of 32 bytes, the size of the name field. -/
def name32 : String := "Luxio-living-room-ceiling-strip1"

/-- The sample device after `led.set_count` with the count 14. -/
def strip14_state : State :=
  (handle_request sample_platform 1 "led.set_count" (Json.obj [("count", Json.int 14)])
    sample_state).2

/-- A palette of 14 colours, red at index 7 and black elsewhere. -/
def palette14 : List Json :=
  List.replicate 7 (Json.obj [("r", Json.int 0)]) ++ [Json.obj [("r", Json.int 255)]] ++
    List.replicate 6 (Json.obj [("r", Json.int 0)])

/-- The sample device after `led.set_count` with the count 5. -/
def strip5_state : State :=
  (handle_request sample_platform 1 "led.set_count" (Json.obj [("count", Json.int 5)])
    sample_state).2

/-- A palette of two colours. -/
def palette2 : List Json :=
  [ Json.obj [("r", Json.int 10), ("g", Json.int 200), ("b", Json.int 0), ("w", Json.int 7)],
    Json.obj [("r", Json.int 250), ("g", Json.int 100), ("b", Json.int 0), ("w", Json.int 255)] ]

/-- The gradient formula as the specification words it, in exact arithmetic,
for one channel of pixel `i`: with `pos = i * (n - 1) / (count - 1)`,
`idx1 = floor(pos)`, `idx2 = ceil(pos)` and `frac = pos - idx1`, the value
`palette[idx1] + (palette[idx2] - palette[idx1]) * frac` truncated to an
integer.  `pos` is kept as the fraction `num / den`. -/
def spec_gradient_channel (palette : List Nat) (count i : Nat) : Int :=
  let n : Int := palette.length
  let num : Int := (i : Int) * (n - 1)
  let den : Int := (count : Int) - 1
  let idx1 : Int := num / den
  let idx2 : Int := -((-num) / den)
  let c1 : Int := palette.getD idx1.toNat 0
  let c2 : Int := palette.getD idx2.toNat 0
  Int.tdiv (c1 * den + (c2 - c1) * (num - idx1 * den)) den

/-- The sample device after `led.set_count` with the count 1. -/
def strip1_state : State :=
  (handle_request sample_platform 1 "led.set_count" (Json.obj [("count", Json.int 1)])
    sample_state).2

/-- The sample device connected to a network, no sync under way. -/
def connected_state : State :=
  { sample_state with wifi_is_connected := true, wifi_is_connected_since_start := true,
                      wifi_is_hotspot := false }

/-- The fading device at the clock reading 5212, which is 352 ms after the
start of its session, no tick having run since the reading 5000. -/
def late_state : State :=
  { fading_state with hw := { sample_hw with millis := 5212 } }

/-- The interpolation of a step as the specification words it, in exact
arithmetic: `previous * (1 - p / 255) + target * (p / 255)` truncated to an
integer. -/
def spec_step_channel (previous target p : Nat) : Nat :=
  (previous * (255 - p) + target * p) / 255

/-- A device 7 ms into a fade of its 60 LEDs from red with a little white to
the same white alone: the white channel of every pixel is 3 before and after. -/
def steady_state : State :=
  { sample_state with
    hw := { sample_hw with millis := 5007 }
    pixels_previous := fun i => if i < 60 then { r := 50, w := 3 } else {}
    pixels_current := fun i => if i < 60 then { r := 50, w := 3 } else {}
    pixels_target := fun i => if i < 60 then { w := 3 } else {}
    animating := true
    animating_start_ms := 5000 }

/-- The sample device just after the command `led.set_color` with red: a fade
of its 60 LEDs from white to red has started at the clock reading 5000. -/
def red_fade_state : State :=
  (handle_request sample_platform 1 "led.set_color"
    (Json.obj [("r", Json.int 255), ("g", Json.int 0), ("b", Json.int 0)]) sample_state).2

/-- A handler that leaves the state as it was whenever it returns an error. -/
def ErrKeeps (f : Json → State → APIResponse × State) : Prop :=
  ∀ p s, (f p s).1.err ≠ "" → (f p s).2 = s


/-! ## Lemmas -/

theorem string_length_zero (x : String) : x.length = 0 ↔ x = "" := by
  constructor
  · intro h
    cases x with
    | mk d =>
      simp [String.length] at h
      simp [h]
  · intro h; subst h; rfl

theorem write_loop_apply (g : Nat → ColorRGBW) (n : Nat) (a : Buffer) (j : Nat) :
    write_loop g n a j = if j < n then g j else a j := by
  induction n with
  | zero => simp [write_loop]
  | succ k ih =>
    simp only [write_loop, Function.update_apply]
    by_cases h : j = k
    · subst h; simp
    · rw [if_neg h, ih]
      by_cases h2 : j < k
      · simp [h2, Nat.lt_succ_of_lt h2]
      · have : ¬ j < k + 1 := by omega
        simp [h2, this]

theorem wrap_response_ok (r : APIResponse) (h : r.err = "") :
    wrap_response r = Json.obj [("result", r.result)] := by
  simp [wrap_response, h, Json.set]

theorem wrap_response_err (r : APIResponse) (h : r.err ≠ "") :
    wrap_response r = Json.obj [("error", Json.str r.err)] := by
  have : ¬ r.err.length = 0 := fun hl => h ((string_length_zero _).1 hl)
  simp [wrap_response, this, Json.set]

theorem wrap_response_keys (r : APIResponse) :
    (wrap_response r).keys = if r.err = "" then ["result"] else ["error"] := by
  by_cases h : r.err = ""
  · rw [wrap_response_ok r h, if_pos h]; rfl
  · rw [wrap_response_err r h, if_neg h]; rfl

theorem error_key_iff (r : APIResponse) : "error" ∈ (wrap_response r).keys ↔ r.err ≠ "" := by
  rw [wrap_response_keys]
  by_cases h : r.err = ""
  · simp [h]
  · simp [h]

theorem ite_cases {α : Type} (P : α → Prop) (c : Prop) [Decidable c] (a b : α)
    (ha : P a) (hb : P b) : P (if c then a else b) := by
  by_cases h : c
  · rw [if_pos h]; exact ha
  · rw [if_neg h]; exact hb

theorem call_method_cases (P : APIResponse × State → Prop) (pf : Platform) (method : String)
    (params : Json) (s : State)
    (h01 : P (wifi.api.get_config params s)) (h02 : P (wifi.api.get_state params s))
    (h03 : P (wifi.api.get_networks params s)) (h04 : P (wifi.api.scan_networks params s))
    (h05 : P (wifi.api.connect params s)) (h06 : P (wifi.api.disconnect params s))
    (h07 : P (led.api.get_config params s)) (h08 : P (led.api.get_state params s))
    (h09 : P (led.api.get_count params s)) (h10 : P (led.api.set_count params s))
    (h11 : P (led.api.get_pin params s)) (h12 : P (led.api.set_pin pf params s))
    (h13 : P (led.api.get_type params s)) (h14 : P (led.api.set_type params s))
    (h15 : P (led.api.set_on params s)) (h16 : P (led.api.set_color pf params s))
    (h17 : P (led.api.set_gradient pf params s)) (h18 : P (led.api.set_brightness pf params s))
    (h19 : P (led.api.set_animation params s)) (h20 : P (sys.api.ping params s))
    (h21 : P (sys.api.test_error params s)) (h22 : P (sys.api.test_echo params s))
    (h23 : P (sys.api.get_config params s)) (h24 : P (sys.api.get_state params s))
    (h25 : P (sys.api.get_name params s)) (h26 : P (sys.api.set_name params s))
    (h27 : P (sys.api.restart params s)) (h28 : P (sys.api.factory_reset params s))
    (h29 : P (sys.api.enable_debug params s)) (h30 : P (sys.api.disable_debug params s))
    (h31 : P ({ result := get_full_state s }, s)) (h32 : P ({ err := "unknown_method" }, s)) :
    P (call_method pf method params s) := by
  unfold call_method
  exact ite_cases P _ _ _ h01 (
    ite_cases P _ _ _ h02 (
    ite_cases P _ _ _ h03 (
    ite_cases P _ _ _ h04 (
    ite_cases P _ _ _ h05 (
    ite_cases P _ _ _ h06 (
    ite_cases P _ _ _ h07 (
    ite_cases P _ _ _ h08 (
    ite_cases P _ _ _ h09 (
    ite_cases P _ _ _ h10 (
    ite_cases P _ _ _ h11 (
    ite_cases P _ _ _ h12 (
    ite_cases P _ _ _ h13 (
    ite_cases P _ _ _ h14 (
    ite_cases P _ _ _ h15 (
    ite_cases P _ _ _ h16 (
    ite_cases P _ _ _ h17 (
    ite_cases P _ _ _ h18 (
    ite_cases P _ _ _ h19 (
    ite_cases P _ _ _ h20 (
    ite_cases P _ _ _ h21 (
    ite_cases P _ _ _ h22 (
    ite_cases P _ _ _ h23 (
    ite_cases P _ _ _ h24 (
    ite_cases P _ _ _ h25 (
    ite_cases P _ _ _ h26 (
    ite_cases P _ _ _ h27 (
    ite_cases P _ _ _ h28 (
    ite_cases P _ _ _ h29 (
    ite_cases P _ _ _ h30 (
    ite_cases P _ _ _ h31 (
    h32)))))))))))))))))))))))))))))))

theorem errKeeps_of_snd (f : Json → State → APIResponse × State)
    (h : ∀ p s, (f p s).2 = s) : ErrKeeps f :=
  fun p s _ => h p s

theorem errKeeps_of_ok (f : Json → State → APIResponse × State)
    (h : ∀ p s, (f p s).1.err = "") : ErrKeeps f :=
  fun p s he => absurd (h p s) he

theorem errKeeps_wifi_connect : ErrKeeps wifi.api.connect := by
  intro p s h
  unfold wifi.api.connect at h ⊢
  try dsimp only at h ⊢
  split_ifs at h ⊢ <;> first | rfl | exact absurd rfl h

theorem errKeeps_set_count : ErrKeeps led.api.set_count := by
  intro p s h
  unfold led.api.set_count at h ⊢
  try dsimp only at h ⊢
  split_ifs at h ⊢ <;> first | rfl | exact absurd rfl h

theorem errKeeps_set_pin (pf : Platform) : ErrKeeps (led.api.set_pin pf) := by
  intro p s h
  unfold led.api.set_pin at h ⊢
  try dsimp only at h ⊢
  split_ifs at h ⊢ <;> first | rfl | exact absurd rfl h

theorem errKeeps_set_on : ErrKeeps led.api.set_on := by
  intro p s h
  unfold led.api.set_on at h ⊢
  try dsimp only at h ⊢
  split_ifs at h ⊢ <;> first | rfl | exact absurd rfl h

theorem errKeeps_set_color (pf : Platform) : ErrKeeps (led.api.set_color pf) := by
  intro p s h
  unfold led.api.set_color at h ⊢
  try dsimp only at h ⊢
  split_ifs at h ⊢ <;> first | rfl | exact absurd rfl h

theorem errKeeps_set_gradient (pf : Platform) : ErrKeeps (led.api.set_gradient pf) := by
  intro p s h
  unfold led.api.set_gradient at h ⊢
  try dsimp only at h ⊢
  split_ifs at h ⊢ <;> first | rfl | exact absurd rfl h

theorem errKeeps_set_brightness (pf : Platform) : ErrKeeps (led.api.set_brightness pf) := by
  intro p s h
  unfold led.api.set_brightness at h ⊢
  try dsimp only at h ⊢
  split_ifs at h ⊢ <;> first | rfl | exact absurd rfl h

theorem errKeeps_set_name : ErrKeeps sys.api.set_name := by
  intro p s h
  unfold sys.api.set_name at h ⊢
  try dsimp only at h ⊢
  split_ifs at h ⊢ <;> first | rfl | exact absurd rfl h

theorem set_type_false (type : String) (s : State) (h : (led.set_type type s).1 = false) :
    (led.set_type type s).2 = s := by
  unfold led.set_type at h ⊢
  split_ifs at h ⊢
  rfl

theorem api_set_type_eq (p : Json) (s : State) :
    led.api.set_type p s =
      if !(p.get "type").is_String then ({ err := "invalid_type" }, s)
      else if (led.set_type (p.get "type").as_String s).1 then
        ({}, (led.set_type (p.get "type").as_String s).2)
      else ({ err := "invalid_type" }, (led.set_type (p.get "type").as_String s).2) := rfl

theorem errKeeps_set_type : ErrKeeps led.api.set_type := by
  intro p s h
  rw [api_set_type_eq] at h ⊢
  by_cases h1 : (!(p.get "type").is_String) = true
  · rw [if_pos h1]
  · rw [if_neg h1] at h ⊢
    by_cases h2 : (led.set_type (p.get "type").as_String s).1 = true
    · rw [if_pos h2] at h
      exact absurd rfl h
    · rw [if_neg h2]
      exact set_type_false _ _ (by simpa using h2)

theorem call_method_err (pf : Platform) (method : String) (params : Json) (s : State)
    (h : (call_method pf method params s).1.err ≠ "") :
    (call_method pf method params s).2 = s := by
  revert h
  apply call_method_cases (fun r => r.1.err ≠ "" → r.2 = s)
  · exact errKeeps_of_snd _ (fun _ _ => rfl) _ _
  · exact errKeeps_of_snd _ (fun _ _ => rfl) _ _
  · exact errKeeps_of_snd _ (fun _ _ => rfl) _ _
  · exact errKeeps_of_ok _ (fun _ _ => rfl) _ _
  · exact errKeeps_wifi_connect _ _
  · exact errKeeps_of_ok _ (fun _ _ => rfl) _ _
  · exact errKeeps_of_snd _ (fun _ _ => rfl) _ _
  · exact errKeeps_of_snd _ (fun _ _ => rfl) _ _
  · exact errKeeps_of_snd _ (fun _ _ => rfl) _ _
  · exact errKeeps_set_count _ _
  · exact errKeeps_of_snd _ (fun _ _ => rfl) _ _
  · exact errKeeps_set_pin pf _ _
  · exact errKeeps_of_snd _ (fun _ _ => rfl) _ _
  · exact errKeeps_set_type _ _
  · exact errKeeps_set_on _ _
  · exact errKeeps_set_color pf _ _
  · exact errKeeps_set_gradient pf _ _
  · exact errKeeps_set_brightness pf _ _
  · exact errKeeps_of_snd _ (fun _ _ => rfl) _ _
  · exact errKeeps_of_snd _ (fun _ _ => rfl) _ _
  · exact errKeeps_of_snd _ (fun _ _ => rfl) _ _
  · exact errKeeps_of_snd _ (fun _ _ => rfl) _ _
  · exact errKeeps_of_snd _ (fun _ _ => rfl) _ _
  · exact errKeeps_of_snd _ (fun _ _ => rfl) _ _
  · exact errKeeps_of_snd _ (fun _ _ => rfl) _ _
  · exact errKeeps_set_name _ _
  · exact errKeeps_of_ok _ (fun _ _ => rfl) _ _
  · exact errKeeps_of_ok _ (fun _ _ => rfl) _ _
  · exact errKeeps_of_ok _ (fun _ _ => rfl) _ _
  · exact errKeeps_of_ok _ (fun _ _ => rfl) _ _
  · intro _; rfl
  · intro _; rfl

theorem call_method_unknown (pf : Platform) (method : String) (params : Json) (s : State)
    (h : method ∉ registered_methods) :
    call_method pf method params s = ({ err := "unknown_method" }, s) := by
  simp only [registered_methods, List.mem_cons, List.mem_singleton, not_or, List.mem_nil_iff,
    not_false_eq_true, and_true] at h
  simp [call_method, h]

/-! ## Dispatcher claims -/

/-- C1: for a method name that is not one of the registered names, and any
request id and params, `handle_request` returns exactly the response
`{error: "unknown_method"}`, which has no `result` key, and the device state
after the call is the state before it. -/
theorem unknown_method_reported (pf : Platform) (req_id : Int) (method : String)
    (params : Json) (s : State) (h : method ∉ registered_methods) :
    (handle_request pf req_id method params s).1
        = Json.obj [("error", Json.str "unknown_method")] ∧
      "result" ∉ (handle_request pf req_id method params s).1.keys ∧
      (handle_request pf req_id method params s).2 = s := by
  have e : handle_request pf req_id method params s
      = (Json.obj [("error", Json.str "unknown_method")], s) := by
    unfold handle_request
    rw [call_method_unknown pf method params s h]
    rfl
  rw [e]
  exact ⟨rfl, by simp [Json.keys], rfl⟩

/-- C1 at the request `handle(2, "bad.method", {})`. -/
theorem unknown_method_reported_witness :
    "bad.method" ∉ registered_methods ∧
      (handle_request sample_platform 2 "bad.method" (Json.obj []) sample_state).1
        = Json.obj [("error", Json.str "unknown_method")] :=
  ⟨by decide,
    (unknown_method_reported sample_platform 2 "bad.method" (Json.obj []) sample_state
      (by decide)).1⟩

/-- C3: the response of `handle_request` has exactly one key, `error` or
`result`; it is `error`, holding the error string of the handler, exactly when
that string is not empty, and otherwise `result`, holding the result value of
the handler. -/
theorem response_has_result_or_error (pf : Platform) (req_id : Int) (method : String)
    (params : Json) (s : State) :
    ((handle_request pf req_id method params s).1.keys = ["error"] ∨
        (handle_request pf req_id method params s).1.keys = ["result"]) ∧
      ("error" ∈ (handle_request pf req_id method params s).1.keys ↔
        (call_method pf method params s).1.err ≠ "") ∧
      ((call_method pf method params s).1.err ≠ "" →
        (handle_request pf req_id method params s).1
          = Json.obj [("error", Json.str (call_method pf method params s).1.err)]) ∧
      ((call_method pf method params s).1.err = "" →
        (handle_request pf req_id method params s).1
          = Json.obj [("result", (call_method pf method params s).1.result)]) := by
  unfold handle_request
  refine ⟨?_, error_key_iff _, wrap_response_err _, wrap_response_ok _⟩
  rw [wrap_response_keys]
  by_cases h : (call_method pf method params s).1.err = ""
  · right; rw [if_pos h]
  · left; rw [if_neg h]

/-- C9: whenever `handle_request` answers with an error response, the state
after the call is the state before it: config in RAM and in EEPROM, LED
runtime state, pixel and `colors_target` arrays, animation session, network
flags, scheduled timers, emitted events and external calls are all as they
were. -/
theorem error_response_keeps_state (pf : Platform) (req_id : Int) (method : String)
    (params : Json) (s : State)
    (h : "error" ∈ (handle_request pf req_id method params s).1.keys) :
    (handle_request pf req_id method params s).2 = s := by
  unfold handle_request at h ⊢
  exact call_method_err pf method params s ((error_key_iff _).1 h)

/-- C9 at `led.set_count` with the count 0. -/
theorem error_response_keeps_state_witness :
    "error" ∈ (handle_request sample_platform 1 "led.set_count"
        (Json.obj [("count", Json.int 0)]) sample_state).1.keys ∧
      (handle_request sample_platform 1 "led.set_count"
        (Json.obj [("count", Json.int 0)]) sample_state).2 = sample_state :=
  ⟨by decide,
    error_response_keeps_state sample_platform 1 "led.set_count"
      (Json.obj [("count", Json.int 0)]) sample_state (by decide)⟩

/-- C2, as stated, fails: the response that `handle_request` builds for
`handle(1, "system.ping", {})` is `{result: "pong"}`; it has no `id` key, so it
is not `{id: 1, result: "pong"}`. -/
theorem ping_response_without_id :
    (handle_request sample_platform 1 "system.ping" (Json.obj []) sample_state).1
        = Json.obj [("result", Json.str "pong")] ∧
      "id" ∉ (handle_request sample_platform 1 "system.ping" (Json.obj []) sample_state).1.keys ∧
      (handle_request sample_platform 1 "system.ping" (Json.obj []) sample_state).1.get "id"
        = Json.null := by
  refine ⟨rfl, ?_, rfl⟩
  simp [handle_request, call_method, sys.api.ping, wrap_response, Json.set, Json.keys]

/-- C2 (amended): for every request id `n` and params, `handle_request` answers
`system.ping` with `{result: "pong"}` and leaves the state as it was; the id is
added by the serial transport, whose answer to a line with the integer id `n`,
the method `system.ping` and an object as params is `{result: "pong", id: n}`. -/
theorem ping_pong (pf : Platform) (n : Int) (params : Json) (s : State) (req : Json)
    (kvs : List (String × Json)) (hid : req.get "id" = Json.int n)
    (hn : -2147483648 ≤ n ∧ n ≤ 2147483647)
    (hm : req.get "method" = Json.str "system.ping") (hp : req.get "params" = Json.obj kvs) :
    handle_request pf n "system.ping" params s = (Json.obj [("result", Json.str "pong")], s) ∧
      serial.handle_line pf req s
        = (some (Json.obj [("result", Json.str "pong"), ("id", Json.int n)]), s) := by
  constructor
  · rfl
  · simp [serial.handle_line, hid, hm, hp, Json.is_int, Json.is_String, Json.as_String,
      Json.as_int, hn, handle_request, call_method, sys.api.ping, wrap_response, Json.set,
      Json.insert]

/-- C2 (amended) at the serial line `{id: 1, method: "system.ping", params: {}}`. -/
theorem ping_pong_witness :
    serial.handle_line sample_platform
        (Json.obj [("id", Json.int 1), ("method", Json.str "system.ping"),
          ("params", Json.obj [])]) sample_state
      = (some (Json.obj [("result", Json.str "pong"), ("id", Json.int 1)]), sample_state) :=
  (ping_pong sample_platform 1 (Json.obj []) sample_state
    (Json.obj [("id", Json.int 1), ("method", Json.str "system.ping"), ("params", Json.obj [])])
    [] rfl (by decide) rfl rfl).2

/-! ## Device name -/

/-- C7: `system.set_name` with the empty string, or with a string longer than
the 32 bytes of the name field, answers with the error `name_out_of_range` and
leaves the state, and so the stored name, as it was. -/
theorem set_name_rejects_bad_length (pf : Platform) (req_id : Int) (params : Json) (s : State)
    (name : String) (hp : params.get "name" = Json.str name)
    (h : name = "" ∨ name.length > NAME_SIZE) :
    (handle_request pf req_id "system.set_name" params s).1
        = Json.obj [("error", Json.str "name_out_of_range")] ∧
      (handle_request pf req_id "system.set_name" params s).2 = s ∧
      (handle_request pf req_id "system.set_name" params s).2.config.name = s.config.name ∧
      sys.get_name (handle_request pf req_id "system.set_name" params s).2 = sys.get_name s := by
  have hc : name.length < 1 ∨ name.length > NAME_SIZE := by
    rcases h with h | h
    · left; subst h; decide
    · right; exact h
  have e : handle_request pf req_id "system.set_name" params s
      = (Json.obj [("error", Json.str "name_out_of_range")], s) := by
    have e1 : call_method pf "system.set_name" params s = sys.api.set_name params s := rfl
    unfold handle_request
    rw [e1]
    unfold sys.api.set_name
    rw [hp]
    simp only [Json.is_String, Json.as_String, Bool.not_true, Bool.false_eq_true, if_false]
    rw [if_pos hc]
    rfl
  rw [e]
  exact ⟨rfl, rfl, rfl, rfl⟩

/-- C7 at the empty name and at a name of 33 bytes. -/
theorem set_name_rejects_bad_length_witness :
    (handle_request sample_platform 1 "system.set_name"
        (Json.obj [("name", Json.str "")]) sample_state).2 = sample_state ∧
      (handle_request sample_platform 1 "system.set_name"
        (Json.obj [("name", Json.str "abcdefghijklmnopqrstuvwxyz0123456")]) sample_state).2
        = sample_state :=
  ⟨(set_name_rejects_bad_length sample_platform 1 (Json.obj [("name", Json.str "")])
      sample_state "" rfl (Or.inl rfl)).2.1,
    (set_name_rejects_bad_length sample_platform 1
      (Json.obj [("name", Json.str "abcdefghijklmnopqrstuvwxyz0123456")])
      sample_state "abcdefghijklmnopqrstuvwxyz0123456" rfl (Or.inr (by decide))).2.1⟩

/-! ## LED count -/

theorem set_type_led_count (type : String) (s : State) :
    (led.set_type type s).2.config.led_count = s.config.led_count := by
  unfold led.set_type
  split_ifs <;> rfl

theorem api_set_count_ok (params : Json) (s : State) (n : Int)
    (hp : params.get "count" = Json.int n) (hn : 1 ≤ n ∧ n ≤ led.MAX_LED_COUNT) :
    led.api.set_count params s = ({}, led.set_count n s) := by
  have hm : led.MAX_LED_COUNT = 512 := rfl
  rw [hm] at hn
  have h1 : -2147483648 ≤ n ∧ n ≤ 2147483647 := ⟨by omega, by omega⟩
  have h2 : ¬ (n < 1 ∨ n > led.MAX_LED_COUNT) := by rw [hm]; omega
  unfold led.api.set_count
  rw [hp]
  simp only [Json.is_int, Json.as_int, h1, and_self, decide_True, Bool.not_true,
    Bool.false_eq_true, if_false, if_true]
  rw [if_neg h2]

theorem api_set_count_range (params : Json) (s : State) :
    (led.api.set_count params s).2 = s ∨
      (1 ≤ (led.api.set_count params s).2.config.led_count ∧
        (led.api.set_count params s).2.config.led_count ≤ led.MAX_LED_COUNT) := by
  unfold led.api.set_count
  dsimp only
  split_ifs with h1 h2
  · left; rfl
  · left; rfl
  · right
    have e : (led.set_count (params.get "count").as_int s).config.led_count
        = (params.get "count").as_int := rfl
    show 1 ≤ (led.set_count (params.get "count").as_int s).config.led_count ∧
      (led.set_count (params.get "count").as_int s).config.led_count ≤ led.MAX_LED_COUNT
    rw [e]
    constructor <;> omega

theorem api_set_count_rejects (params : Json) (s : State) (n : Int)
    (hp : params.get "count" = Json.int n) (hn : n < 1 ∨ n > led.MAX_LED_COUNT) :
    (led.api.set_count params s).1.err ≠ "" ∧ (led.api.set_count params s).2 = s := by
  unfold led.api.set_count
  rw [hp]
  by_cases h1 : (!(Json.int n).is_int) = true
  · rw [if_pos h1]; exact ⟨by simp, rfl⟩
  · rw [if_neg h1]
    have h2 : (Json.int n).as_int = n := by
      simp only [Json.is_int, Bool.not_eq_true', decide_eq_false_iff_not, not_not] at h1
      simp [Json.as_int, h1]
    dsimp only
    rw [h2, if_pos hn]
    exact ⟨by simp, rfl⟩

/-- C4: if `1 <= led_count <= MAX_LED_COUNT` holds before `handle_request`, it
holds after it, whatever the method and the params; and `led.set_count` with an
integer count below 1 or above `MAX_LED_COUNT` answers with an error and leaves
the state, and so the stored count, as it was. -/
theorem led_count_stays_in_range (pf : Platform) (req_id : Int) (method : String)
    (params : Json) (s : State)
    (h : 1 ≤ s.config.led_count ∧ s.config.led_count ≤ led.MAX_LED_COUNT) :
    (1 ≤ (handle_request pf req_id method params s).2.config.led_count ∧
        (handle_request pf req_id method params s).2.config.led_count ≤ led.MAX_LED_COUNT) ∧
      ∀ n : Int, params.get "count" = Json.int n → n < 1 ∨ n > led.MAX_LED_COUNT →
        "error" ∈ (handle_request pf req_id "led.set_count" params s).1.keys ∧
          (handle_request pf req_id "led.set_count" params s).2 = s ∧
          (handle_request pf req_id "led.set_count" params s).2.config.led_count
            = s.config.led_count := by
  constructor
  · have key : (call_method pf method params s).2.config.led_count = s.config.led_count ∨
        (1 ≤ (call_method pf method params s).2.config.led_count ∧
          (call_method pf method params s).2.config.led_count ≤ led.MAX_LED_COUNT) := by
      apply call_method_cases (fun r => r.2.config.led_count = s.config.led_count ∨
        (1 ≤ r.2.config.led_count ∧ r.2.config.led_count ≤ led.MAX_LED_COUNT))
      · left; rfl
      · left; rfl
      · left; rfl
      · left; rfl
      · left; unfold wifi.api.connect; split_ifs <;> rfl
      · left; rfl
      · left; rfl
      · left; rfl
      · left; rfl
      · rcases api_set_count_range params s with e | e
        · left; rw [e]
        · right; exact e
      · left; rfl
      · left; unfold led.api.set_pin; dsimp only; split_ifs <;> rfl
      · left; rfl
      · left; rw [api_set_type_eq]; split_ifs <;> first | rfl | exact set_type_led_count _ _
      · left; unfold led.api.set_on; split_ifs <;> rfl
      · left; unfold led.api.set_color; split_ifs <;> rfl
      · left; unfold led.api.set_gradient; dsimp only; split_ifs <;> rfl
      · left; unfold led.api.set_brightness; dsimp only; split_ifs <;> rfl
      · left; rfl
      · left; rfl
      · left; rfl
      · left; rfl
      · left; rfl
      · left; rfl
      · left; rfl
      · left; unfold sys.api.set_name; dsimp only; split_ifs <;> rfl
      · left; rfl
      · left; rfl
      · left; rfl
      · left; rfl
      · left; rfl
      · left; rfl
    show 1 ≤ (call_method pf method params s).2.config.led_count ∧
      (call_method pf method params s).2.config.led_count ≤ led.MAX_LED_COUNT
    rcases key with e | e
    · rw [e]; exact h
    · exact e
  · intro n hp hn
    have e1 : call_method pf "led.set_count" params s = led.api.set_count params s := rfl
    have r := api_set_count_rejects params s n hp hn
    have hs : (handle_request pf req_id "led.set_count" params s).2 = s := by
      show (call_method pf "led.set_count" params s).2 = s
      rw [e1]; exact r.2
    refine ⟨?_, hs, by rw [hs]⟩
    show "error" ∈ (wrap_response (call_method pf "led.set_count" params s).1).keys
    rw [e1]
    exact (error_key_iff _).2 r.1

/-- C4 at `led.set_count` with the count 513 on a strip of 60 LEDs. -/
theorem led_count_stays_in_range_witness :
    (1 ≤ sample_state.config.led_count ∧ sample_state.config.led_count ≤ led.MAX_LED_COUNT) ∧
      (handle_request sample_platform 1 "led.set_count"
        (Json.obj [("count", Json.int 513)]) sample_state).2.config.led_count = 60 :=
  ⟨by decide,
    ((led_count_stays_in_range sample_platform 1 "led.set_count"
      (Json.obj [("count", Json.int 513)]) sample_state (by decide)).2 513 rfl
        (Or.inr (by decide))).2.2⟩

/-- C5: for every count in `[1, MAX_LED_COUNT]`, `led.set_count` with that
count succeeds (its response is `{result: null}`) and `led.get_count` on the
state it leaves answers with exactly that count. -/
theorem set_count_then_get_count (pf : Platform) (id1 id2 : Int) (params params2 : Json)
    (s : State) (n : Int) (hp : params.get "count" = Json.int n)
    (hn : 1 ≤ n ∧ n ≤ led.MAX_LED_COUNT) :
    (handle_request pf id1 "led.set_count" params s).1 = Json.obj [("result", Json.null)] ∧
      (handle_request pf id2 "led.get_count" params2
        (handle_request pf id1 "led.set_count" params s).2).1
        = Json.obj [("result", Json.int n)] := by
  have e1 : handle_request pf id1 "led.set_count" params s
      = (Json.obj [("result", Json.null)], led.set_count n s) := by
    have e : call_method pf "led.set_count" params s = led.api.set_count params s := rfl
    unfold handle_request
    rw [e, api_set_count_ok params s n hp hn]
    rfl
  rw [e1]
  exact ⟨rfl, rfl⟩

/-- C5 at the count 144. -/
theorem set_count_then_get_count_witness :
    (handle_request sample_platform 2 "led.get_count" (Json.obj [])
      (handle_request sample_platform 1 "led.set_count"
        (Json.obj [("count", Json.int 144)]) sample_state).2).1
      = Json.obj [("result", Json.int 144)] :=
  (set_count_then_get_count sample_platform 1 2 (Json.obj [("count", Json.int 144)])
    (Json.obj []) sample_state 144 rfl (by decide)).2

/-- C6, as stated, fails: `led.set_count` with the valid count 30, issued while
a session is active, succeeds and leaves the mixed colour of the earlier
session in `pixels_current` and copies it into `pixels_previous`; neither
array is cleared and the session flag stays set. -/
theorem set_count_keeps_stale_pixels :
    fading_state.animating = true ∧
      (handle_request sample_platform 1 "led.set_count" (Json.obj [("count", Json.int 30)])
        fading_state).1 = Json.obj [("result", Json.null)] ∧
      (handle_request sample_platform 1 "led.set_count" (Json.obj [("count", Json.int 30)])
        fading_state).2.pixels_current 0 = { r := 30, g := 0, b := 0, w := 20 } ∧
      (handle_request sample_platform 1 "led.set_count" (Json.obj [("count", Json.int 30)])
        fading_state).2.pixels_previous 0 = { r := 30, g := 0, b := 0, w := 20 } ∧
      (handle_request sample_platform 1 "led.set_count" (Json.obj [("count", Json.int 30)])
        fading_state).2.pixels_previous 0 ≠ { r := 0, g := 0, b := 0, w := 0 } ∧
      (handle_request sample_platform 1 "led.set_count" (Json.obj [("count", Json.int 30)])
        fading_state).2.animating = true := by
  refine ⟨rfl, rfl, rfl, rfl, ?_, rfl⟩
  decide

/-- C6 (amended): for every valid count `n`, `led.set_count` stores `n`, makes a
new strip object of `n` LEDs whose pixels and shown frame are black, and
restarts the session towards the initial colour of the strip type: `on` is
true, the palette is the initial colour, and for every pixel `i < n`
`colors_target[i]` is the initial colour, `pixels_target[i]` is that colour
mixed with the brightness and `pixels_previous[i]` is `pixels_current[i]`;
`pixels_current` is not written, the session is active and starts at the
current clock reading. -/
theorem set_count_restarts_session (pf : Platform) (req_id : Int) (params : Json) (s : State)
    (n : Int) (hp : params.get "count" = Json.int n) (hn : 1 ≤ n ∧ n ≤ led.MAX_LED_COUNT) :
    (handle_request pf req_id "led.set_count" params s).2.config.led_count = n ∧
      (handle_request pf req_id "led.set_count" params s).2.strip.count = n ∧
      (∀ i, (handle_request pf req_id "led.set_count" params s).2.strip.pixels i = {} ∧
        (handle_request pf req_id "led.set_count" params s).2.strip.shown i = {}) ∧
      (handle_request pf req_id "led.set_count" params s).2.state_on = true ∧
      (handle_request pf req_id "led.set_count" params s).2.state_colors
        = [(handle_request pf req_id "led.set_count" params s).2.initial_color] ∧
      (∀ i : Nat, (i : Int) < n →
        (handle_request pf req_id "led.set_count" params s).2.colors_target i
          = (handle_request pf req_id "led.set_count" params s).2.initial_color ∧
        (handle_request pf req_id "led.set_count" params s).2.pixels_target i
          = led.mix_color (handle_request pf req_id "led.set_count" params s).2.initial_color
              s.state_brightness ∧
        (handle_request pf req_id "led.set_count" params s).2.pixels_previous i
          = s.pixels_current i) ∧
      (handle_request pf req_id "led.set_count" params s).2.pixels_current = s.pixels_current ∧
      (handle_request pf req_id "led.set_count" params s).2.animating = true ∧
      (handle_request pf req_id "led.set_count" params s).2.animating_start_ms
        = led.to_int32 s.hw.millis := by
  have e1 : handle_request pf req_id "led.set_count" params s
      = (Json.obj [("result", Json.null)], led.set_count n s) := by
    have e : call_method pf "led.set_count" params s = led.api.set_count params s := rfl
    unfold handle_request
    rw [e, api_set_count_ok params s n hp hn]
    rfl
  rw [e1]
  refine ⟨rfl, rfl, fun i => ⟨rfl, rfl⟩, rfl, rfl, ?_, rfl, rfl, rfl⟩
  intro i hi
  have hi2 : i < n.toNat := by omega
  refine ⟨?_, ?_, ?_⟩
  · show write_loop _ n.toNat _ i = _
    rw [write_loop_apply, if_pos hi2]
    rfl
  · show write_loop _ n.toNat _ i = _
    rw [write_loop_apply, if_pos hi2]
    show (if true = true then led.mix_color (write_loop _ n.toNat _ i) s.state_brightness
      else _) = _
    rw [if_pos rfl, write_loop_apply, if_pos hi2]
    rfl
  · show write_loop _ n.toNat _ i = _
    rw [write_loop_apply, if_pos hi2]
    rfl

/-- C6 (amended) at the count 30 during a fade: pixel 0 starts the new fade
from its mixed colour. -/
theorem set_count_restarts_session_witness :
    (handle_request sample_platform 1 "led.set_count" (Json.obj [("count", Json.int 30)])
        fading_state).2.pixels_previous 0 = fading_state.pixels_current 0 ∧
      (handle_request sample_platform 1 "led.set_count" (Json.obj [("count", Json.int 30)])
        fading_state).2.pixels_current = fading_state.pixels_current :=
  ⟨((set_count_restarts_session sample_platform 1 (Json.obj [("count", Json.int 30)])
      fading_state 30 rfl (by decide)).2.2.2.2.2.1 0 (by decide)).2.2,
    (set_count_restarts_session sample_platform 1 (Json.obj [("count", Json.int 30)])
      fading_state 30 rfl (by decide)).2.2.2.2.2.2.1⟩

theorem c_str_name32_append (mem : List Char) :
    c_str (name32.data ++ mem) = name32 ++ c_str mem := by
  have h : ∀ a ∈ name32.data, (fun c => c != NUL) a = true := by decide
  unfold c_str
  rw [List.takeWhile_append_of_pos h]
  rfl

/-- C8, at a name of 32 bytes: `system.set_name` accepts the name, and then the
name field holds the 32 bytes of the name and no terminator, so the stored
name is not a terminated string inside the field; `system.get_name` reads on
past the field and answers with the name followed by the bytes that come after
the config in memory, which is not the name when such a byte follows. -/
theorem set_name_full_field_unterminated (pf : Platform) (id1 id2 : Int) (params2 : Json)
    (s : State) :
    (handle_request pf id1 "system.set_name" (Json.obj [("name", Json.str name32)]) s).1
        = Json.obj [("result", Json.null)] ∧
      (handle_request pf id1 "system.set_name" (Json.obj [("name", Json.str name32)]) s).2.config.name
        = name32.data ∧
      NUL ∉ (handle_request pf id1 "system.set_name"
        (Json.obj [("name", Json.str name32)]) s).2.config.name ∧
      (handle_request pf id2 "system.get_name" params2
        (handle_request pf id1 "system.set_name" (Json.obj [("name", Json.str name32)]) s).2).1
        = Json.obj [("result", Json.str (name32 ++ c_str s.mem_after))] ∧
      (handle_request sample_platform id2 "system.get_name" params2
        (handle_request sample_platform id1 "system.set_name" (Json.obj [("name", Json.str name32)])
          { sample_state with mem_after := [Char.ofNat 35, NUL] }).2).1
        = Json.obj [("result", Json.str "Luxio-living-room-ceiling-strip1#")] := by
  have e : ∀ (q : Platform) (t : State),
      handle_request q id1 "system.set_name" (Json.obj [("name", Json.str name32)]) t
        = (Json.obj [("result", Json.null)], sys.set_name name32 t) := fun _ _ => rfl
  have g : ∀ (q : Platform) (t : State),
      (handle_request q id2 "system.get_name" params2 (sys.set_name name32 t)).1
        = Json.obj [("result", Json.str (name32 ++ c_str t.mem_after))] := by
    intro q t
    show Json.obj [("result", Json.str (c_str (strncpy name32 NAME_SIZE ++ t.mem_after)))] = _
    have hs : strncpy name32 NAME_SIZE = name32.data := by decide
    rw [hs, c_str_name32_append]
  have hs : strncpy name32 NAME_SIZE = name32.data := by decide
  have hn : NUL ∉ strncpy name32 NAME_SIZE := by decide
  rw [e, e, g, g]
  exact ⟨rfl, hs, hn, rfl, rfl⟩

/-! ## Gradient -/

theorem as_uint8_lt (pf : Platform) (v : Json) : v.as_uint8 pf < 256 := by
  cases v with
  | null => simp [Json.as_uint8]
  | bool b => cases b <;> simp [Json.as_uint8]
  | int n =>
    simp only [Json.as_uint8]
    split_ifs with h
    · omega
    · omega
  | float num den =>
    simp only [Json.as_uint8]
    split_ifs with h
    · have hd : (0 : Int) < (den : Int) + 1 := by omega
      have h2 : num / ((den : Int) + 1) < 256 := by
        apply Int.ediv_lt_of_lt_mul hd
        omega
      omega
    · omega
  | str s => simp only [Json.as_uint8]; omega
  | arr xs => simp [Json.as_uint8]
  | obj kvs => simp [Json.as_uint8]

theorem flt_mul_zero_right (p : Nat) (x : Flt) : Flt.mul p x Flt.zero = Flt.zero := by
  simp [Flt.mul, Flt.round, Flt.zero]

theorem flt_mul_zero_left (p : Nat) (y : Flt) : Flt.mul p Flt.zero y = Flt.zero := by
  simp [Flt.mul, Flt.round, Flt.zero]

theorem flt_div_zero_left (p : Nat) (y : Flt) : Flt.div p Flt.zero y = Flt.zero := by
  simp [Flt.div, Flt.zero]

set_option maxRecDepth 100000 in
theorem to_u8_add_zero : ∀ c, c < 256 →
    (Flt.add 24 (Flt.ofInt 24 (c : Nat)) Flt.zero).to_u8 = c := by
  decide

set_option maxRecDepth 100000 in
theorem flt_div_self : ∀ m, m < 512 → 0 < m →
    Flt.div 24 (Flt.ofInt 24 (m : Nat)) (Flt.ofInt 24 (m : Nat)) = ⟨8388608, -23⟩ := by
  decide

set_option maxRecDepth 100000 in
theorem flt_one_mul : ∀ k, k < 512 →
    (Flt.mul 24 ⟨8388608, -23⟩ (Flt.ofInt 24 (k : Nat))).floor = k ∧
      (Flt.mul 24 ⟨8388608, -23⟩ (Flt.ofInt 24 (k : Nat))).ceil = k ∧
      Flt.sub 24 (Flt.mul 24 ⟨8388608, -23⟩ (Flt.ofInt 24 (k : Nat))) (Flt.ofInt 24 (k : Nat))
        = Flt.zero := by
  decide

theorem interpolate_channel_zero (c1 c2 : Nat) (h : c1 < 256) :
    led.interpolate_channel c1 c2 Flt.zero = c1 := by
  unfold led.interpolate_channel
  rw [flt_mul_zero_right]
  exact to_u8_add_zero c1 h

theorem decode_color_lt (pf : Platform) (v : Json) :
    (led.decode_color pf v).r < 256 ∧ (led.decode_color pf v).g < 256 ∧
      (led.decode_color pf v).b < 256 ∧ (led.decode_color pf v).w < 256 :=
  ⟨as_uint8_lt pf _, as_uint8_lt pf _, as_uint8_lt pf _, as_uint8_lt pf _⟩

theorem gradient_color_first (pf : Platform) (colors : List Json) (count : Int)
    (h : ¬ count - 1 = 0) :
    led.gradient_color pf colors count 0 = led.decode_color pf (Json.at colors 0) := by
  have h0 : Flt.ofInt 24 ((0 : Nat) : Int) = Flt.zero := rfl
  have hf : Flt.floor Flt.zero = 0 := rfl
  have hc : Flt.ceil Flt.zero = 0 := rfl
  have hs : Flt.sub 24 Flt.zero (Flt.ofInt 24 0) = Flt.zero := rfl
  have hl := decode_color_lt pf (Json.at colors 0)
  unfold led.gradient_color
  rw [if_neg h]
  simp only [h0, flt_div_zero_left, flt_mul_zero_left, hf, hc, hs]
  rw [interpolate_channel_zero _ _ hl.1, interpolate_channel_zero _ _ hl.2.1,
    interpolate_channel_zero _ _ hl.2.2.1, interpolate_channel_zero _ _ hl.2.2.2]

theorem gradient_color_last (pf : Platform) (colors : List Json) (m k : Nat)
    (hm : 0 < m) (hm2 : m < 512) (hk : colors.length = k + 1) (hk2 : k < 512) :
    led.gradient_color pf colors ((m : Int) + 1) m = led.decode_color pf (Json.at colors k) := by
  have h : ¬ ((m : Int) + 1 - 1 = 0) := by omega
  have e1 : (m : Int) + 1 - 1 = (m : Nat) := by omega
  have e2 : ((colors.length : Nat) : Int) - 1 = (k : Nat) := by rw [hk]; push_cast; omega
  have hl := decode_color_lt pf (Json.at colors k)
  obtain ⟨hf, hc, hs⟩ := flt_one_mul k hk2
  unfold led.gradient_color
  rw [if_neg h]
  simp only [e1, e2, flt_div_self m hm2 hm, hf, hc, hs]
  rw [interpolate_channel_zero _ _ hl.1, interpolate_channel_zero _ _ hl.2.1,
    interpolate_channel_zero _ _ hl.2.2.1, interpolate_channel_zero _ _ hl.2.2.2]

theorem api_set_gradient_ok (pf : Platform) (params : Json) (s : State) (colors : List Json)
    (hp : params.get "colors" = Json.arr colors)
    (hn : 1 ≤ colors.length ∧ (colors.length : Int) ≤ s.config.led_count) :
    (led.api.set_gradient pf params s).1.err = "" ∧
      (led.api.set_gradient pf params s).2.colors_target
        = write_loop (led.gradient_color pf colors s.config.led_count) s.config.led_count.toNat
            s.colors_target := by
  have h : ¬ ((colors.length : Int) < 1 ∨ (colors.length : Int) > led.get_count s) := by
    have : led.get_count s = s.config.led_count := rfl
    omega
  unfold led.api.set_gradient
  rw [hp]
  simp only [Json.as_array]
  rw [if_neg h]
  exact ⟨rfl, rfl⟩

/-- C10, as stated, fails: on a strip of 14 LEDs with a palette of 14 colours,
red (255) at index 7 and black around it, `led.set_gradient` writes the red
channel 254 to `colors_target[7]`, while the formula of the claim, with
`pos = 7 * 13 / 13 = 7`, gives the palette colour 255.  In `float` the product
`(7.0f / 13) * 13` is just above 7, so `idx2` is 8 and `frac` is not 0. -/
theorem gradient_differs_from_exact_formula :
    strip14_state.config.led_count = 14 ∧
      (handle_request sample_platform 2 "led.set_gradient"
        (Json.obj [("colors", Json.arr palette14)]) strip14_state).1
        = Json.obj [("result", Json.null)] ∧
      ((handle_request sample_platform 2 "led.set_gradient"
        (Json.obj [("colors", Json.arr palette14)]) strip14_state).2.colors_target 7).r = 254 ∧
      spec_gradient_channel (palette14.map (fun c => (led.decode_color sample_platform c).r)) 14 7
        = 255 ∧
      (Flt.mul 24 (Flt.div 24 (Flt.ofInt 24 7) (Flt.ofInt 24 13)) (Flt.ofInt 24 13)).ceil = 8 := by
  refine ⟨rfl, rfl, ?_, ?_, ?_⟩ <;> decide

/-- C10 (amended): for a palette of `n` colours and a strip of `count` LEDs
with `2 <= count <= MAX_LED_COUNT` and `1 <= n <= count`, `led.set_gradient`
writes to `colors_target[i]`, for every pixel `i < count`, the formula
evaluated in `float` arithmetic with every operation rounded to nearest
(`gradient_color`); pixel 0 is exactly the first palette colour and pixel
`count - 1` exactly the last. -/
theorem gradient_endpoints (pf : Platform) (req_id : Int) (params : Json) (s : State)
    (colors : List Json) (hp : params.get "colors" = Json.arr colors)
    (hc : 2 ≤ s.config.led_count ∧ s.config.led_count ≤ led.MAX_LED_COUNT)
    (hn : 1 ≤ colors.length ∧ (colors.length : Int) ≤ s.config.led_count) :
    (∀ i : Nat, (i : Int) < s.config.led_count →
        (handle_request pf req_id "led.set_gradient" params s).2.colors_target i
          = led.gradient_color pf colors s.config.led_count i) ∧
      (handle_request pf req_id "led.set_gradient" params s).2.colors_target 0
        = led.decode_color pf (Json.at colors 0) ∧
      (handle_request pf req_id "led.set_gradient" params s).2.colors_target
          (s.config.led_count - 1).toNat
        = led.decode_color pf (Json.at colors ((colors.length : Int) - 1)) := by
  have hm : led.MAX_LED_COUNT = 512 := rfl
  rw [hm] at hc
  have e : (handle_request pf req_id "led.set_gradient" params s).2.colors_target
      = write_loop (led.gradient_color pf colors s.config.led_count) s.config.led_count.toNat
          s.colors_target := (api_set_gradient_ok pf params s colors hp hn).2
  have all : ∀ i : Nat, (i : Int) < s.config.led_count →
      (handle_request pf req_id "led.set_gradient" params s).2.colors_target i
        = led.gradient_color pf colors s.config.led_count i := by
    intro i hi
    have hi2 : i < s.config.led_count.toNat := by omega
    rw [e, write_loop_apply, if_pos hi2]
  refine ⟨all, ?_, ?_⟩
  · rw [all 0 (by omega)]
    exact gradient_color_first pf colors _ (by omega)
  · obtain ⟨m, hm1⟩ : ∃ m : Nat, s.config.led_count = (m : Int) + 1 :=
      ⟨(s.config.led_count - 1).toNat, by omega⟩
    obtain ⟨k, hk⟩ : ∃ k : Nat, colors.length = k + 1 := ⟨colors.length - 1, by omega⟩
    have e3 : (s.config.led_count - 1).toNat = m := by omega
    have e4 : ((colors.length : Nat) : Int) - 1 = (k : Nat) := by rw [hk]; push_cast; omega
    rw [e3, e4, all m (by omega), hm1]
    exact gradient_color_last pf colors m k (by omega) (by omega) hk (by omega)

/-- C10 (amended) at the palette `[A, B]` over 5 LEDs: pixel 0 is `A` and
pixel 4 is `B`. -/
theorem gradient_endpoints_witness :
    (handle_request sample_platform 2 "led.set_gradient"
        (Json.obj [("colors", Json.arr palette2)]) strip5_state).2.colors_target 0
        = { r := 10, g := 200, b := 0, w := 7 } ∧
      (handle_request sample_platform 2 "led.set_gradient"
        (Json.obj [("colors", Json.arr palette2)]) strip5_state).2.colors_target 4
        = { r := 250, g := 100, b := 0, w := 255 } :=
  ⟨(gradient_endpoints sample_platform 2 (Json.obj [("colors", Json.arr palette2)]) strip5_state
      palette2 rfl (by decide) (by decide)).2.1,
    (gradient_endpoints sample_platform 2 (Json.obj [("colors", Json.arr palette2)]) strip5_state
      palette2 rfl (by decide) (by decide)).2.2⟩

set_option maxRecDepth 100000 in
/-- The example of the specification: with the palette `[A, B]` over 5 LEDs every
channel of every pixel is the value of the exact formula. -/
theorem gradient_two_colors_five_pixels :
    ∀ i, i < 5 →
      let c := (handle_request sample_platform 2 "led.set_gradient"
        (Json.obj [("colors", Json.arr palette2)]) strip5_state).2.colors_target i
      (c.r : Int) = spec_gradient_channel [10, 250] 5 i ∧
        (c.g : Int) = spec_gradient_channel [200, 100] 5 i ∧
        (c.b : Int) = spec_gradient_channel [0, 0] 5 i ∧
        (c.w : Int) = spec_gradient_channel [7, 255] 5 i := by
  decide


/-! ## Full state -/

/-- C18, as stated, fails: the document of `get_full_state()` has the top-level
keys `system`, `wifi` and `led`; it has no key `network`. -/
theorem full_state_has_no_network_key :
    (get_full_state sample_state).keys = ["system", "wifi", "led"] ∧
      "network" ∉ (get_full_state sample_state).keys ∧
      (get_full_state sample_state).get "network" = Json.null := by
  refine ⟨rfl, ?_, rfl⟩
  have h : (get_full_state sample_state).keys = ["system", "wifi", "led"] := rfl
  rw [h]
  decide

/-- C18 (amended): `get_full_state()` returns an object whose top-level keys are
exactly `system`, `wifi` and `led`, in that order, and each of them holds an
object with exactly the two keys `state` and `config`, equal to `get_state()`
and `get_config()` of that domain. -/
theorem full_state_layout (s : State) :
    (get_full_state s).keys = ["system", "wifi", "led"] ∧
      (get_full_state s).get "system"
        = Json.obj [("state", sys.get_state s), ("config", sys.get_config s)] ∧
      (get_full_state s).get "wifi"
        = Json.obj [("state", wifi.get_state s), ("config", wifi.get_config s)] ∧
      (get_full_state s).get "led"
        = Json.obj [("state", led.get_state s), ("config", led.get_config s)] := by
  refine ⟨?_, ?_, ?_, ?_⟩ <;>
    simp [get_full_state, Json.set2, Json.set, Json.get, Json.insert, Json.lookup, Json.keys]

/-! ## Network setup and background sync -/

/-- C17: when the first byte of the stored SSID is the terminator (the SSID is
empty), `wifi::setup` sets the station mode, the host name and auto-reconnect,
then starts the access point named after the device and sets the hotspot flag;
it makes no `WiFi.begin` call, and nothing else of the state changes. -/
theorem setup_without_ssid_starts_hotspot (s : State) (rest : List Char)
    (h : s.config.wifi_ssid = NUL :: rest) :
    (wifi.setup s).calls = s.calls ++
        [ExtCall.wifi_mode_sta, ExtCall.wifi_hostname (sys.get_device_name s),
          ExtCall.wifi_set_auto_reconnect, ExtCall.wifi_soft_ap (sys.get_device_name s)] ∧
      (wifi.setup s).wifi_is_hotspot = true ∧
      (∀ ssid pass, ExtCall.wifi_begin ssid pass ∉
        [ExtCall.wifi_mode_sta, ExtCall.wifi_hostname (sys.get_device_name s),
          ExtCall.wifi_set_auto_reconnect, ExtCall.wifi_soft_ap (sys.get_device_name s)]) ∧
      wifi.setup s = { s with calls := (wifi.setup s).calls, wifi_is_hotspot := true } := by
  have e : (c_str (s.config.wifi_ssid ++ s.config.wifi_pass ++ s.config.name ++ s.mem_after)).length
      = 0 := by
    rw [h]
    simp [c_str, List.takeWhile, NUL]
  have hs : wifi.setup s = { s with
      calls := s.calls ++
        [ExtCall.wifi_mode_sta, ExtCall.wifi_hostname (sys.get_device_name s),
          ExtCall.wifi_set_auto_reconnect] ++ [ExtCall.wifi_soft_ap (sys.get_device_name s)],
      wifi_is_hotspot := true } := by
    unfold wifi.setup
    dsimp only
    rw [if_pos e]
    rfl
  rw [hs]
  refine ⟨by simp, rfl, ?_, rfl⟩
  intro ssid pass
  simp

/-- C17 at the sample device, whose SSID field holds 32 terminators. -/
theorem setup_without_ssid_starts_hotspot_witness :
    sample_state.config.wifi_ssid = NUL :: List.replicate 31 NUL ∧
      (wifi.setup sample_state).calls = sample_state.calls ++
        [ExtCall.wifi_mode_sta, ExtCall.wifi_hostname (sys.get_device_name sample_state),
          ExtCall.wifi_set_auto_reconnect,
          ExtCall.wifi_soft_ap (sys.get_device_name sample_state)] ∧
      (wifi.setup sample_state).wifi_is_hotspot = true :=
  ⟨rfl, (setup_without_ssid_starts_hotspot sample_state (List.replicate 31 NUL) rfl).1,
    (setup_without_ssid_starts_hotspot sample_state (List.replicate 31 NUL) rfl).2.1⟩

/-- C16: each sync task is a no-op, changing nothing and making no call, when
the device is not connected or when either guard is set; when the device is
connected and no guard is set, the task makes exactly one server call, during
which its own guard is set and the guard of the other task is not, and it
leaves both guards clear. -/
theorem sync_tasks_exclude_each_other (s : State) :
    ((s.wifi_is_connected = false ∨ s.nupnp_is_syncing = true ∨ s.ota_is_syncing = true) →
        nupnp.sync s = s ∧ ota.sync s = s) ∧
      ((s.wifi_is_connected = true ∧ s.nupnp_is_syncing = false ∧ s.ota_is_syncing = false) →
        (nupnp.sync s).calls
            = s.calls ++ [ExtCall.nupnp_post nupnp.URL (nupnp.body s) true false] ∧
          (nupnp.sync s).nupnp_is_syncing = false ∧ (nupnp.sync s).ota_is_syncing = false ∧
          (ota.sync s).calls
            = s.calls ++ [ExtCall.ota_update (ota.URL s) VERSION false true] ∧
          (ota.sync s).nupnp_is_syncing = false ∧ (ota.sync s).ota_is_syncing = false) := by
  constructor
  · intro h
    unfold nupnp.sync ota.sync
    rcases h with h | h | h
    · simp [h]
    · cases hc : s.wifi_is_connected <;> simp [h]
    · cases hc : s.wifi_is_connected <;> cases hn : s.nupnp_is_syncing <;> simp [h]
  · rintro ⟨hc, hn, ho⟩
    have c1 : ¬ (s.wifi_is_connected = false) := by simp [hc]
    have c2 : ¬ (s.nupnp_is_syncing = true) := by simp [hn]
    have c3 : ¬ (s.ota_is_syncing = true) := by simp [ho]
    have e1 : (nupnp.sync s).calls
          = s.calls ++ [ExtCall.nupnp_post nupnp.URL (nupnp.body s) true false] ∧
        (nupnp.sync s).nupnp_is_syncing = false ∧ (nupnp.sync s).ota_is_syncing = false := by
      unfold nupnp.sync
      rw [if_neg c1, if_neg c2, if_neg c3]
      refine ⟨?_, rfl, ho⟩
      show s.calls ++ [ExtCall.nupnp_post nupnp.URL (nupnp.body s) true s.ota_is_syncing] = _
      rw [ho]
    have e2 : (ota.sync s).calls
          = s.calls ++ [ExtCall.ota_update (ota.URL s) VERSION false true] ∧
        (ota.sync s).nupnp_is_syncing = false ∧ (ota.sync s).ota_is_syncing = false := by
      unfold ota.sync
      rw [if_neg c1, if_neg c2, if_neg c3]
      refine ⟨?_, hn, rfl⟩
      show s.calls ++ [ExtCall.ota_update (ota.URL s) VERSION s.nupnp_is_syncing true] = _
      rw [hn]
    exact ⟨e1.1, e1.2.1, e1.2.2, e2.1, e2.2.1, e2.2.2⟩

/-! ## Redirection of a fade -/

theorem animate_previous (s : State) (i : Nat) (hi : (i : Int) < s.config.led_count) :
    (led.animate s).pixels_previous i = s.pixels_current i := by
  have hi2 : i < s.config.led_count.toNat := by omega
  show write_loop _ s.config.led_count.toNat _ i = _
  rw [write_loop_apply, if_pos hi2]

theorem keys_result_of_error (r : APIResponse) (h : "result" ∈ (wrap_response r).keys) :
    r.err = "" := by
  by_contra hne
  rw [wrap_response_keys, if_neg hne] at h
  simp at h

/-- C15: each of `led.set_color`, `led.set_on`, `led.set_brightness` and
`led.set_gradient`, when it succeeds, in any state and so in one with a session
under way, leaves `pixels_current` as it is, copies `pixels_current[i]` to
`pixels_previous[i]` for every pixel `i < led_count` and starts a session at
the current clock reading: the new fade begins at the colours shown now. -/
theorem setters_restart_from_current (pf : Platform) (req_id : Int) (method : String)
    (params : Json) (s : State)
    (hm : method = "led.set_color" ∨ method = "led.set_on" ∨ method = "led.set_brightness" ∨
      method = "led.set_gradient")
    (hr : "result" ∈ (handle_request pf req_id method params s).1.keys) :
    (handle_request pf req_id method params s).2.pixels_current = s.pixels_current ∧
      (∀ i : Nat, (i : Int) < s.config.led_count →
        (handle_request pf req_id method params s).2.pixels_previous i = s.pixels_current i) ∧
      (handle_request pf req_id method params s).2.animating = true ∧
      (handle_request pf req_id method params s).2.animating_start_ms
        = led.to_int32 s.hw.millis := by
  have hr2 : (call_method pf method params s).1.err = "" := keys_result_of_error _ hr
  show (call_method pf method params s).2.pixels_current = s.pixels_current ∧
      (∀ i : Nat, (i : Int) < s.config.led_count →
        (call_method pf method params s).2.pixels_previous i = s.pixels_current i) ∧
      (call_method pf method params s).2.animating = true ∧
      (call_method pf method params s).2.animating_start_ms = led.to_int32 s.hw.millis
  rcases hm with hm | hm | hm | hm <;> subst hm
  · have e : call_method pf "led.set_color" params s = led.api.set_color pf params s := rfl
    rw [e] at hr2 ⊢
    unfold led.api.set_color at hr2 ⊢
    by_cases h1 : (!(params.get "r").is_int) = true ∨ (!(params.get "g").is_int) = true ∨
        (!(params.get "b").is_int) = true
    · rw [if_pos h1] at hr2
      exact absurd hr2 (by simp)
    · rw [if_neg h1]
      exact ⟨rfl, fun i hi => animate_previous _ i hi, rfl, rfl⟩
  · have e : call_method pf "led.set_on" params s = led.api.set_on params s := rfl
    rw [e] at hr2 ⊢
    unfold led.api.set_on at hr2 ⊢
    by_cases h1 : (!(params.get "on").is_bool) = true
    · rw [if_pos h1] at hr2
      exact absurd hr2 (by simp)
    · rw [if_neg h1]
      exact ⟨rfl, fun i hi => animate_previous _ i hi, rfl, rfl⟩
  · have e : call_method pf "led.set_brightness" params s = led.api.set_brightness pf params s :=
      rfl
    rw [e] at hr2 ⊢
    unfold led.api.set_brightness at hr2 ⊢
    by_cases h1 : (!(params.get "brightness").is_int) = true
    · rw [if_pos h1] at hr2
      exact absurd hr2 (by simp)
    · rw [if_neg h1] at hr2 ⊢
      dsimp only at hr2 ⊢
      by_cases h2 : (((params.get "brightness").as_uint8 pf : Nat) : Int) < 10 ∨
          (((params.get "brightness").as_uint8 pf : Nat) : Int) > 255
      · rw [if_pos h2] at hr2
        exact absurd hr2 (by simp)
      · rw [if_neg h2]
        exact ⟨rfl, fun i hi => animate_previous _ i hi, rfl, rfl⟩
  · have e : call_method pf "led.set_gradient" params s = led.api.set_gradient pf params s := rfl
    rw [e] at hr2 ⊢
    unfold led.api.set_gradient at hr2 ⊢
    dsimp only at hr2 ⊢
    by_cases h1 : ((params.get "colors").as_array.length : Int) < 1 ∨
        ((params.get "colors").as_array.length : Int) > led.get_count s
    · rw [if_pos h1] at hr2
      exact absurd hr2 (by simp)
    · rw [if_neg h1]
      exact ⟨rfl, fun i hi => animate_previous _ i hi, rfl, rfl⟩

/-- C15 at `led.set_color` during a fade: pixel 0 restarts from its mixed
colour, not from the target of the fade under way. -/
theorem setters_restart_from_current_witness :
    fading_state.animating = true ∧
      (handle_request sample_platform 1 "led.set_color"
        (Json.obj [("r", Json.int 0), ("g", Json.int 0), ("b", Json.int 255)])
        fading_state).2.pixels_previous 0 = { r := 30, g := 0, b := 0, w := 20 } ∧
      fading_state.pixels_target 0 = { r := 0, g := 0, b := 0, w := 50 } :=
  ⟨rfl,
    (setters_restart_from_current sample_platform 1 "led.set_color"
      (Json.obj [("r", Json.int 0), ("g", Json.int 0), ("b", Json.int 255)]) fading_state
      (Or.inl rfl) (by decide)).2.1 0 (by decide),
    rfl⟩

/-- C16 at the connected sample device: the discovery post is made with the
guard of its own task set and the guard of the update task clear. -/
theorem sync_tasks_exclude_each_other_witness :
    (connected_state.wifi_is_connected = true ∧ connected_state.nupnp_is_syncing = false ∧
        connected_state.ota_is_syncing = false) ∧
      (nupnp.sync connected_state).calls
        = [ExtCall.nupnp_post nupnp.URL (nupnp.body connected_state) true false] ∧
      ota.sync { connected_state with nupnp_is_syncing := true }
        = { connected_state with nupnp_is_syncing := true } :=
  ⟨⟨rfl, rfl, rfl⟩,
    ((sync_tasks_exclude_each_other connected_state).2 ⟨rfl, rfl, rfl⟩).1,
    ((sync_tasks_exclude_each_other { connected_state with nupnp_is_syncing := true }).1
      (Or.inr (Or.inl rfl))).2⟩

/-! ## Range of integer parameters -/

/-- C20, as stated, fails: `led.set_color` with the integer `r = 300` answers
with a result, not an error, and applies the colour with `r` read as 0: the
palette and the target colours change. -/
theorem set_color_accepts_out_of_range :
    (handle_request sample_platform 1 "led.set_color"
        (Json.obj [("r", Json.int 300), ("g", Json.int 20), ("b", Json.int 30)])
        sample_state).1 = Json.obj [("result", Json.null)] ∧
      (handle_request sample_platform 1 "led.set_color"
        (Json.obj [("r", Json.int 300), ("g", Json.int 20), ("b", Json.int 30)])
        sample_state).2.state_colors = [{ r := 0, g := 20, b := 30, w := 0 }] ∧
      sample_state.state_colors = [{ r := 0, g := 0, b := 0, w := 255 }] ∧
      (handle_request sample_platform 1 "led.set_color"
        (Json.obj [("r", Json.int 300), ("g", Json.int 20), ("b", Json.int 30)])
        sample_state).2.colors_target 0 = { r := 0, g := 20, b := 30, w := 0 } ∧
      sample_state.colors_target 0 = { r := 0, g := 0, b := 0, w := 255 } := by
  exact ⟨rfl, rfl, rfl, rfl, rfl⟩

/-- The range test of `led.set_pin` is never reached with a value outside
`[0, 255]`: the pin is read with `as<uint8_t>()` first, which turns the integer
300 into 0, and the handler stores the pin 0. -/
theorem set_pin_range_test_unreachable :
    (handle_request sample_platform 1 "led.set_pin" (Json.obj [("pin", Json.int 300)])
        { sample_state with config := { sample_state.config with led_pin := 4 } }).1
        = Json.obj [("result", Json.null)] ∧
      (handle_request sample_platform 1 "led.set_pin" (Json.obj [("pin", Json.int 300)])
        { sample_state with config := { sample_state.config with led_pin := 4 } }).2.config.led_pin
        = 0 := by
  exact ⟨rfl, rfl⟩

/-- C20 (amended): a parameter that is not an integer is reported as a
validation error and nothing changes: `led.set_pin` answers `invalid_pin` when
`pin` is not an integer and `led.set_color` answers `invalid_color` when `r`,
`g` or `b` is not an integer, both leaving the state as it was.  `led.set_pin`
with an integer pin inside `[0, 255]` stores that pin.  `led.set_color` has no
range test: with integers `r`, `g`, `b` it succeeds and applies the colour read
by `as<uint8_t>()`, which gives 0 for a value outside `[0, 255]`. -/
theorem integer_params_validation (pf : Platform) (req_id : Int) (params : Json) (s : State) :
    ((params.get "pin").is_int = false →
        handle_request pf req_id "led.set_pin" params s
          = (Json.obj [("error", Json.str "invalid_pin")], s)) ∧
      (∀ n : Int, params.get "pin" = Json.int n → 0 ≤ n ∧ n ≤ 255 →
        (handle_request pf req_id "led.set_pin" params s).1 = Json.obj [("result", Json.null)] ∧
          (handle_request pf req_id "led.set_pin" params s).2.config.led_pin = n) ∧
      (((params.get "r").is_int = false ∨ (params.get "g").is_int = false ∨
          (params.get "b").is_int = false) →
        handle_request pf req_id "led.set_color" params s
          = (Json.obj [("error", Json.str "invalid_color")], s)) ∧
      (∀ r g b : Int, params.get "r" = Json.int r → params.get "g" = Json.int g →
        params.get "b" = Json.int b →
        (-2147483648 ≤ r ∧ r ≤ 2147483647) → (-2147483648 ≤ g ∧ g ≤ 2147483647) →
        (-2147483648 ≤ b ∧ b ≤ 2147483647) →
        (handle_request pf req_id "led.set_color" params s).1 = Json.obj [("result", Json.null)] ∧
          ∃ w : Nat, (handle_request pf req_id "led.set_color" params s).2.state_colors
            = [{ r := if 0 ≤ r ∧ r ≤ 255 then r.toNat else 0
                 g := if 0 ≤ g ∧ g ≤ 255 then g.toNat else 0
                 b := if 0 ≤ b ∧ b ≤ 255 then b.toNat else 0
                 w := w }]) := by
  have ep : handle_request pf req_id "led.set_pin" params s
      = (wrap_response (led.api.set_pin pf params s).1, (led.api.set_pin pf params s).2) := rfl
  have ec : handle_request pf req_id "led.set_color" params s
      = (wrap_response (led.api.set_color pf params s).1, (led.api.set_color pf params s).2) := rfl
  refine ⟨?_, ?_, ?_, ?_⟩
  · intro h
    rw [ep]
    unfold led.api.set_pin
    rw [if_pos (by simp [h])]
    rfl
  · intro n hp hn
    have h1 : (-2147483648 : Int) ≤ n ∧ n ≤ 2147483647 := ⟨by omega, by omega⟩
    have h2 : ¬ ((((Json.int n).as_uint8 pf : Nat) : Int) < 0 ∨
        (((Json.int n).as_uint8 pf : Nat) : Int) > 255) := by
      simp only [Json.as_uint8, hn, and_self, if_true]
      omega
    have h3 : (((Json.int n).as_uint8 pf : Nat) : Int) = n := by
      simp only [Json.as_uint8, hn, and_self, if_true]
      omega
    rw [ep]
    unfold led.api.set_pin
    rw [hp, if_neg (by simp [Json.is_int, h1])]
    dsimp only
    rw [if_neg h2]
    refine ⟨rfl, ?_⟩
    show (((((Json.int n).as_uint8 pf : Nat) : Int).toNat : Nat) : Int) = n
    rw [h3]
    omega
  · intro h
    rw [ec]
    unfold led.api.set_color
    rw [if_pos (by rcases h with h | h | h <;> simp [h])]
    rfl
  · intro r g b hr hg hb h1 h2 h3
    rw [ec]
    unfold led.api.set_color
    rw [hr, hg, hb, if_neg (by simp [Json.is_int, h1, h2, h3])]
    exact ⟨rfl, _, rfl⟩

/-- C20 (amended) at `led.set_color` with `r = -1`, read as 0, and at
`led.set_pin` with a string. -/
theorem integer_params_validation_witness :
    (handle_request sample_platform 1 "led.set_pin" (Json.obj [("pin", Json.str "4")])
        sample_state).2 = sample_state ∧
      (handle_request sample_platform 1 "led.set_color"
        (Json.obj [("pin", Json.str "4"), ("r", Json.int (-1)), ("g", Json.int 20),
          ("b", Json.int 30)]) sample_state).1 = Json.obj [("result", Json.null)] :=
  ⟨congrArg Prod.snd
      ((integer_params_validation sample_platform 1 (Json.obj [("pin", Json.str "4")])
        sample_state).1 rfl),
    ((integer_params_validation sample_platform 1
      (Json.obj [("pin", Json.str "4"), ("r", Json.int (-1)), ("g", Json.int 20),
        ("b", Json.int 30)]) sample_state).2.2.2 (-1) 20 30 rfl rfl rfl (by decide) (by decide)
        (by decide)).1⟩

/-! ## Gradient on a single LED -/

/-- C11, at a strip of one LED and the one-colour palette `(10, 20, 30, 40)`:
`led.set_gradient` succeeds, the divisor `count - 1` of `t` is 0, and every
channel of `colors_target[0]` is the byte that the platform gives for a value
that is not finite, so the pixel is not the palette colour, whatever the
platform. -/
theorem gradient_single_led_not_finite (pf : Platform) (req_id : Int) :
    strip1_state.config.led_count = 1 ∧
      Flt.ofInt 24 (strip1_state.config.led_count - 1) = Flt.zero ∧
      (handle_request pf req_id "led.set_gradient"
        (Json.obj [("colors", Json.arr [Json.obj [("r", Json.int 10), ("g", Json.int 20),
          ("b", Json.int 30), ("w", Json.int 40)]])]) strip1_state).1
        = Json.obj [("result", Json.null)] ∧
      (handle_request pf req_id "led.set_gradient"
        (Json.obj [("colors", Json.arr [Json.obj [("r", Json.int 10), ("g", Json.int 20),
          ("b", Json.int 30), ("w", Json.int 40)]])]) strip1_state).2.colors_target 0
        = { r := pf.nan_u8 % 256, g := pf.nan_u8 % 256, b := pf.nan_u8 % 256,
            w := pf.nan_u8 % 256 } ∧
      (handle_request pf req_id "led.set_gradient"
        (Json.obj [("colors", Json.arr [Json.obj [("r", Json.int 10), ("g", Json.int 20),
          ("b", Json.int 30), ("w", Json.int 40)]])]) strip1_state).2.colors_target 0
        ≠ { r := 10, g := 20, b := 30, w := 40 } := by
  have e : (handle_request pf req_id "led.set_gradient"
        (Json.obj [("colors", Json.arr [Json.obj [("r", Json.int 10), ("g", Json.int 20),
          ("b", Json.int 30), ("w", Json.int 40)]])]) strip1_state).2.colors_target 0
        = { r := pf.nan_u8 % 256, g := pf.nan_u8 % 256, b := pf.nan_u8 % 256,
            w := pf.nan_u8 % 256 } := rfl
  refine ⟨rfl, rfl, rfl, e, ?_⟩
  rw [e]
  intro h
  have h1 : pf.nan_u8 % 256 = 10 := congrArg ColorRGBW.r h
  have h2 : pf.nan_u8 % 256 = 20 := congrArg ColorRGBW.g h
  omega


/-! ## Exact cases of the floating-point operations -/

theorem bit_length_aux_le (fuel : Nat) :
    ∀ (n p : Nat), n < 2 ^ p → bit_length_aux fuel n ≤ p := by
  induction fuel with
  | zero => intro n p _; simp [bit_length_aux]
  | succ f ih =>
    intro n p h
    simp only [bit_length_aux]
    split_ifs with h0
    · omega
    · cases p with
      | zero => simp at h; omega
      | succ q =>
        have : n / 2 < 2 ^ q := by
          rw [pow_succ] at h
          omega
        have := ih (n / 2) q this
        omega

theorem bit_length_le (n p : Nat) (h : n < 2 ^ p) : bit_length n ≤ p :=
  bit_length_aux_le n n p h

theorem flt_round_small (p : Nat) (m e : Int) (h : m.natAbs < 2 ^ p) :
    Flt.round p ⟨m, e⟩ = if m = 0 then Flt.zero else ⟨m, e⟩ := by
  have hb : bit_length m.natAbs - p = 0 := by
    have := bit_length_le m.natAbs p h
    omega
  unfold Flt.round
  by_cases h0 : m = 0
  · simp [h0]
  · have : ¬ m.natAbs = 0 := by omega
    simp [h0, this, hb]

theorem flt_ofInt_small (p : Nat) (n : Int) (h : n.natAbs < 2 ^ p) : Flt.ofInt p n = ⟨n, 0⟩ := by
  unfold Flt.ofInt
  rw [flt_round_small p n 0 h]
  split_ifs with h0
  · rw [h0]; rfl
  · rfl

theorem flt_mul_small (p : Nat) (a b : Int) (h : (a * b).natAbs < 2 ^ p) :
    Flt.mul p ⟨a, 0⟩ ⟨b, 0⟩ = ⟨a * b, 0⟩ := by
  unfold Flt.mul
  show Flt.round p ⟨a * b, 0 + 0⟩ = _
  rw [show (0 : Int) + 0 = 0 from rfl, flt_round_small p (a * b) 0 h]
  split_ifs with h0
  · rw [h0]; rfl
  · rfl

theorem div_round_even_cases (a b : Nat) :
    div_round_even a b = a / b ∨ div_round_even a b = a / b + 1 := by
  unfold div_round_even
  dsimp only
  split_ifs <;> simp

theorem div_round_even_scaled (x s : Nat) (hs : 8 ≤ s) :
    div_round_even (x * 2 ^ s) 255 / 2 ^ s = x / 255 := by
  have hP : 256 ≤ 2 ^ s := by
    calc 256 = 2 ^ 8 := by norm_num
      _ ≤ 2 ^ s := Nat.pow_le_pow_right (by norm_num) hs
  have hPpos : 0 < 2 ^ s := by omega
  -- x = 255 * A + rho
  have hx : x = 255 * (x / 255) + x % 255 := (Nat.div_add_mod x 255).symm
  have hrho : x % 255 < 255 := Nat.mod_lt _ (by norm_num)
  -- quotient of the scaled value
  have hq : x * 2 ^ s / 255 = (x / 255) * 2 ^ s + (x % 255) * 2 ^ s / 255 := by
    conv_lhs => rw [hx]
    rw [Nat.add_mul, Nat.mul_assoc, Nat.mul_add_div (by norm_num : 0 < 255)]
  have ht : (x % 255) * 2 ^ s / 255 + 1 < 2 ^ s := by
    have h1 : (x % 255) * 2 ^ s ≤ 254 * 2 ^ s := Nat.mul_le_mul_right _ (by omega)
    have h2 : 255 * ((x % 255) * 2 ^ s / 255) ≤ (x % 255) * 2 ^ s := Nat.mul_div_le _ _
    omega
  rcases div_round_even_cases (x * 2 ^ s) 255 with h | h
  · rw [h, hq, Nat.add_comm, Nat.add_mul_div_right _ _ hPpos, Nat.div_eq_of_lt (by omega)]
    simp
  · rw [h, hq, Nat.add_assoc, Nat.add_comm, Nat.add_mul_div_right _ _ hPpos,
      Nat.div_eq_of_lt ht]
    simp

theorem to_u8_scaled (x : Nat) (sh : Int) (hs : 8 ≤ sh) (hx : x / 255 < 256) :
    Flt.to_u8 ⟨((div_round_even (x * 2 ^ sh.toNat) (255 * 2 ^ (-sh).toNat) : Nat) : Int), -sh⟩
      = x / 255 := by
  obtain ⟨n, rfl⟩ : ∃ n : Nat, sh = (n : Int) := ⟨sh.toNat, by omega⟩
  have hn : 8 ≤ n := by omega
  have e1 : (-(n : Int)).toNat = 0 := by omega
  have e2 : ((n : Int)).toNat = n := by omega
  have e3 : ¬ (0 : Int) ≤ -(n : Int) := by omega
  have e4 : (-(-(n : Int))).toNat = n := by omega
  unfold Flt.to_u8 Flt.trunc Flt.floor
  simp only [e1, e2, e3, e4, pow_zero, mul_one, Nat.cast_nonneg, if_true, if_false]
  have h := div_round_even_scaled x n hn
  have hc : ((div_round_even (x * 2 ^ n) 255 : Nat) : Int) / (2 : Int) ^ n
      = ((div_round_even (x * 2 ^ n) 255 / 2 ^ n : Nat) : Int) := by
    push_cast
    rfl
  rw [hc, h]
  omega

theorem flt_div255_to_u8 (x : Nat) (hx : x ≤ 65025) :
    (Flt.div 53 ⟨(x : Int), 0⟩ ⟨255, 0⟩).to_u8 = x / 255 := by
  have hq : x / 255 < 256 := by omega
  by_cases h0 : x = 0
  · subst h0
    rfl
  · have hl : bit_length x ≤ 16 := bit_length_le x 16 (by norm_num; omega)
    have hb : bit_length 255 = 8 := by decide
    have ha : ((x : Int)).natAbs = x := Int.natAbs_ofNat x
    have hb2 : ((255 : Int)).natAbs = 255 := rfl
    have hsx : ((x : Int)).sign = 1 := Int.sign_eq_one_of_pos (by omega)
    have hs255 : ((255 : Int)).sign = 1 := rfl
    unfold Flt.div
    simp only [ha, hb2, hb, hsx, hs255, h0, false_or, OfNat.ofNat_ne_zero, if_false, one_mul,
      sub_zero, zero_sub]
    split_ifs with hc
    · exact to_u8_scaled x _ (by omega) hq
    · exact to_u8_scaled x _ (by omega) hq

theorem mix_channel_eq (c : Nat) (brightness : Int) (hc : c < 256)
    (hb : 0 ≤ brightness ∧ brightness ≤ 255) :
    (led.mix_channel c brightness : Int) = (c : Int) * brightness / 255 := by
  obtain ⟨b, rfl⟩ : ∃ b : Nat, brightness = (b : Int) := ⟨brightness.toNat, by omega⟩
  have hb2 : b < 256 := by omega
  have hcb : c * b ≤ 65025 := by
    have : c * b ≤ 255 * 255 := Nat.mul_le_mul (by omega) (by omega)
    omega
  unfold led.mix_channel
  rw [flt_ofInt_small 53 (c : Int) (by simp; omega),
    flt_ofInt_small 53 (b : Int) (by simp; omega),
    flt_ofInt_small 53 255 (by decide),
    flt_mul_small 53 (c : Int) (b : Int) (by
      have : ((c : Int) * (b : Int)).natAbs = c * b := by
        rw [← Nat.cast_mul]; exact Int.natAbs_ofNat _
      rw [this]; omega)]
  have e : ((c : Int) * (b : Int)) = ((c * b : Nat) : Int) := by push_cast; rfl
  rw [e, flt_div255_to_u8 (c * b) hcb]
  push_cast
  rfl

theorem mix_channel_nat (c : Nat) (brightness : Int) (hc : c < 256)
    (hb : 0 ≤ brightness ∧ brightness ≤ 255) :
    led.mix_channel c brightness = c * brightness.toNat / 255 := by
  have h := mix_channel_eq c brightness hc hb
  obtain ⟨b, rfl⟩ : ∃ b : Nat, brightness = (b : Int) := ⟨brightness.toNat, by omega⟩
  have e : ((c : Int) * (b : Int)) / 255 = ((c * b / 255 : Nat) : Int) := by push_cast; rfl
  rw [e] at h
  have h2 : led.mix_channel c (b : Int) = c * b / 255 := by exact_mod_cast h
  simpa using h2

theorem animate_target (s : State) (i : Nat) (hi : (i : Int) < s.config.led_count) :
    (led.animate s).pixels_target i
      = if s.state_on then led.mix_color (s.colors_target i) s.state_brightness
        else { r := 0, g := 0, b := 0, w := 0 } := by
  have hi2 : i < s.config.led_count.toNat := by omega
  show write_loop _ s.config.led_count.toNat _ i = _
  rw [write_loop_apply, if_pos hi2]

/-! ## Brightness -/

/-- C12: `led::animate` writes, for every pixel `i < led_count` whose
`colors_target` channels are bytes and for a brightness in `[0, 255]`: with
`on` true, each channel of `pixels_target[i]` is the channel of
`colors_target[i]` times the brightness divided by 255, truncated, which is at
most the channel of `colors_target[i]` and equal to it at the brightness 255;
with `on` false, every channel is 0. -/
theorem animate_scales_by_brightness (s : State) (i : Nat)
    (hi : (i : Int) < s.config.led_count)
    (hb : 0 ≤ s.state_brightness ∧ s.state_brightness ≤ 255)
    (hc : (s.colors_target i).r < 256 ∧ (s.colors_target i).g < 256 ∧
      (s.colors_target i).b < 256 ∧ (s.colors_target i).w < 256) :
    (s.state_on = true →
        (led.animate s).pixels_target i
            = { r := (s.colors_target i).r * s.state_brightness.toNat / 255
                g := (s.colors_target i).g * s.state_brightness.toNat / 255
                b := (s.colors_target i).b * s.state_brightness.toNat / 255
                w := (s.colors_target i).w * s.state_brightness.toNat / 255 } ∧
          ((led.animate s).pixels_target i).r ≤ (s.colors_target i).r ∧
          ((led.animate s).pixels_target i).g ≤ (s.colors_target i).g ∧
          ((led.animate s).pixels_target i).b ≤ (s.colors_target i).b ∧
          ((led.animate s).pixels_target i).w ≤ (s.colors_target i).w ∧
          (s.state_brightness = 255 → (led.animate s).pixels_target i = s.colors_target i)) ∧
      (s.state_on = false →
        (led.animate s).pixels_target i = { r := 0, g := 0, b := 0, w := 0 }) := by
  have hle : ∀ c : Nat, c * s.state_brightness.toNat / 255 ≤ c := by
    intro c
    have h1 : c * s.state_brightness.toNat ≤ c * 255 := Nat.mul_le_mul_left _ (by omega)
    calc c * s.state_brightness.toNat / 255 ≤ c * 255 / 255 := Nat.div_le_div_right h1
      _ = c := Nat.mul_div_cancel _ (by norm_num)
  constructor
  · intro hon
    have e : (led.animate s).pixels_target i
        = { r := (s.colors_target i).r * s.state_brightness.toNat / 255
            g := (s.colors_target i).g * s.state_brightness.toNat / 255
            b := (s.colors_target i).b * s.state_brightness.toNat / 255
            w := (s.colors_target i).w * s.state_brightness.toNat / 255 } := by
      rw [animate_target s i hi, hon, if_pos rfl]
      unfold led.mix_color
      rw [mix_channel_nat _ _ hc.1 hb, mix_channel_nat _ _ hc.2.1 hb,
        mix_channel_nat _ _ hc.2.2.1 hb, mix_channel_nat _ _ hc.2.2.2 hb]
    rw [e]
    refine ⟨rfl, hle _, hle _, hle _, hle _, ?_⟩
    intro h255
    have ht : s.state_brightness.toNat = 255 := by omega
    simp only [ht, Nat.mul_div_cancel _ (by norm_num : 0 < 255)]
  · intro hoff
    rw [animate_target s i hi, hoff]
    rfl

/-- C12 at pixel 0 of the sample device: the white channel 255 at the
brightness 50 gives the target 50. -/
theorem animate_scales_by_brightness_witness :
    sample_state.state_on = true ∧ sample_state.state_brightness = 50 ∧
      (led.animate sample_state).pixels_target 0 = { r := 0, g := 0, b := 0, w := 50 } :=
  ⟨rfl, rfl,
    ((animate_scales_by_brightness sample_state 0 (by decide) (by decide) (by decide)).1 rfl).1⟩


/-! ## Value of the floating-point operations -/

theorem bit_length_aux_pos (fuel n : Nat) (hn : 0 < n) (hf : 0 < fuel) :
    0 < bit_length_aux fuel n := by
  cases fuel with
  | zero => omega
  | succ f =>
    simp only [bit_length_aux]
    rw [if_neg (by omega)]
    omega

theorem bit_length_aux_lower (fuel : Nat) :
    ∀ n : Nat, n ≤ fuel → 0 < n → 2 ^ (bit_length_aux fuel n - 1) ≤ n := by
  induction fuel with
  | zero => intro n h1 h2; omega
  | succ f ih =>
    intro n h1 h2
    simp only [bit_length_aux]
    rw [if_neg (by omega)]
    simp only [Nat.add_sub_cancel]
    by_cases h : n / 2 = 0
    · have : bit_length_aux f (n / 2) = 0 := by
        rw [h]
        cases f <;> simp [bit_length_aux]
      rw [this]
      simpa using h2
    · have hpos : 0 < n / 2 := by omega
      have hle : n / 2 ≤ f := by omega
      have h3 := ih (n / 2) hle hpos
      have h4 : 0 < bit_length_aux f (n / 2) := bit_length_aux_pos f (n / 2) hpos (by omega)
      have h5 : bit_length_aux f (n / 2) = (bit_length_aux f (n / 2) - 1) + 1 := by omega
      rw [h5, pow_succ]
      omega

theorem bit_length_lower (n : Nat) (hn : 0 < n) : 2 ^ (bit_length n - 1) ≤ n :=
  bit_length_aux_lower n n (le_refl n) hn

theorem bit_length_aux_upper (fuel : Nat) :
    ∀ n : Nat, n ≤ fuel → n < 2 ^ bit_length_aux fuel n := by
  induction fuel with
  | zero => intro n h1; simp [bit_length_aux]; omega
  | succ f ih =>
    intro n h1
    simp only [bit_length_aux]
    by_cases h0 : n = 0
    · rw [if_pos h0, h0]; simp
    · rw [if_neg h0]
      have h3 := ih (n / 2) (by omega)
      rw [pow_succ]
      omega

theorem bit_length_upper (n : Nat) : n < 2 ^ bit_length n :=
  bit_length_aux_upper n n (le_refl n)

theorem div_round_even_bounds (a b : Nat) (hb : 0 < b) :
    2 * (b * div_round_even a b) ≤ 2 * a + b ∧ 2 * a ≤ 2 * (b * div_round_even a b) + b := by
  have h1 : b * (a / b) + a % b = a := Nat.div_add_mod a b
  have h2 : a % b < b := Nat.mod_lt _ hb
  unfold div_round_even
  dsimp only
  split_ifs with c1 c2 c3
  · constructor <;> omega
  · rw [Nat.mul_add]; constructor <;> omega
  · constructor <;> omega
  · rw [Nat.mul_add]; constructor <;> omega

theorem val_mk (m e : Int) : Flt.val ⟨m, e⟩ = (m : ℚ) * (2 : ℚ) ^ e := rfl

theorem val_zero : Flt.val Flt.zero = 0 := by
  simp [Flt.val, Flt.zero]

theorem two_zpow_pos (e : Int) : (0 : ℚ) < (2 : ℚ) ^ e :=
  zpow_pos (by norm_num) e

theorem val_nonneg (x : Flt) (h : 0 ≤ x.m) : 0 ≤ x.val := by
  unfold Flt.val
  exact mul_nonneg (by exact_mod_cast h) (le_of_lt (two_zpow_pos _))

theorem m_nonneg_of_val (x : Flt) (h : 0 ≤ x.val) : 0 ≤ x.m := by
  unfold Flt.val at h
  by_contra hc
  have h1 : (x.m : ℚ) < 0 := by exact_mod_cast (not_le.mp hc)
  have := mul_neg_of_neg_of_pos h1 (two_zpow_pos x.e)
  linarith

/-- Rounding a value that is not negative changes it by at most the fraction
`2 ^ (-p)` of itself. -/
theorem val_round (p : Nat) (hp : 0 < p) (x : Flt) (hx : 0 ≤ x.m) :
    0 ≤ (Flt.round p x).m ∧
    x.val * ((2 : ℚ) ^ p - 1) ≤ (Flt.round p x).val * (2 : ℚ) ^ p ∧
    (Flt.round p x).val * (2 : ℚ) ^ p ≤ x.val * ((2 : ℚ) ^ p + 1) := by
  obtain ⟨m, e⟩ := x
  obtain ⟨a, rfl⟩ := Int.eq_ofNat_of_zero_le hx
  have hP : (0 : ℚ) < (2 : ℚ) ^ p := by positivity
  have hv : 0 ≤ Flt.val ⟨(a : Int), e⟩ := val_nonneg _ hx
  unfold Flt.round
  dsimp only
  rw [Int.natAbs_ofNat]
  by_cases h0 : a = 0
  · rw [if_pos h0]
    subst h0
    simp [Flt.val, Flt.zero]
  · rw [if_neg h0]
    by_cases hk : bit_length a - p = 0
    · rw [if_pos hk]
      refine ⟨hx, ?_, ?_⟩ <;> nlinarith
    · rw [if_neg hk]
      have ha : 0 < a := Nat.pos_of_ne_zero h0
      have hs : ((a : Int)).sign = 1 := Int.sign_eq_one_of_pos (by exact_mod_cast ha)
      rw [hs, one_mul]
      obtain ⟨b1, b2⟩ := div_round_even_bounds a (2 ^ (bit_length a - p)) (by positivity)
      have b3 := bit_length_lower a ha
      have e1 : bit_length a - 1 = (bit_length a - p) + (p - 1) := by omega
      rw [e1, pow_add] at b3
      generalize div_round_even a (2 ^ (bit_length a - p)) = D at b1 b2 ⊢
      generalize hB : 2 ^ (bit_length a - p) = B at b1 b2 b3 ⊢
      have e2 : (2 : ℚ) ^ p = 2 * (2 : ℚ) ^ (p - 1) := by
        rw [← pow_succ']
        congr 1
        omega
      have c1 : (2 : ℚ) * ((B : ℚ) * D) ≤ 2 * a + B := by exact_mod_cast b1
      have c2 : (2 : ℚ) * a ≤ 2 * ((B : ℚ) * D) + B := by exact_mod_cast b2
      have c3 : (B : ℚ) * (2 : ℚ) ^ (p - 1) ≤ a := by exact_mod_cast b3
      have hE : (0 : ℚ) < (2 : ℚ) ^ e := two_zpow_pos e
      have eB : ((2 : ℚ) ^ (bit_length a - p)) = (B : ℚ) := by exact_mod_cast congrArg (Nat.cast : Nat → ℚ) hB
      have hval : Flt.val ⟨((D : Nat) : Int), e + ((bit_length a - p : Nat) : Int)⟩
          = (B : ℚ) * D * (2 : ℚ) ^ e := by
        rw [val_mk, zpow_add₀ (by norm_num : (2 : ℚ) ≠ 0), zpow_natCast, eB]
        push_cast
        ring
      rw [hval]
      have hval2 : Flt.val ⟨((a : Nat) : Int), e⟩ = (a : ℚ) * (2 : ℚ) ^ e := by
        rw [val_mk]; push_cast; ring
      rw [hval2]
      have hQ : (0 : ℚ) < (2 : ℚ) ^ (p - 1) := by positivity
      have hBD : (0 : ℚ) ≤ (B : ℚ) * D := by positivity
      refine ⟨by positivity, ?_, ?_⟩
      · have : (a : ℚ) * ((2 : ℚ) ^ p - 1) ≤ (B : ℚ) * D * (2 : ℚ) ^ p := by
          rw [e2]
          nlinarith
        nlinarith
      · have : (B : ℚ) * D * (2 : ℚ) ^ p ≤ (a : ℚ) * ((2 : ℚ) ^ p + 1) := by
          rw [e2]
          nlinarith
        nlinarith

theorem two_pow_toNat (t : Int) :
    (2 : ℚ) ^ t.toNat = (2 : ℚ) ^ t * (2 : ℚ) ^ (-t).toNat := by
  have h2 : (2 : ℚ) ≠ 0 := by norm_num
  rcases le_or_lt 0 t with h | h
  · have e1 : (-t).toNat = 0 := by omega
    have e2 : ((t.toNat : Nat) : Int) = t := Int.toNat_of_nonneg h
    rw [e1, pow_zero, mul_one, ← zpow_natCast, e2]
  · have e1 : t.toNat = 0 := by omega
    have e2 : (((-t).toNat : Nat) : Int) = -t := Int.toNat_of_nonneg (by omega)
    rw [e1, pow_zero, ← zpow_natCast (2 : ℚ) (-t).toNat, e2, ← zpow_add₀ h2]
    simp

/-- The scaled quotient of the significands has at least `p` binary digits. -/
theorem div_scaled_lower (p a b : Nat) (ha : 0 < a) (hb : 0 < b) (hp : 0 < p) (sh : Int)
    (hsh : sh = if 2 ^ (p - 1) ≤ (a * 2 ^ ((p : Int) - 1 - ((bit_length a : Int) - (bit_length b : Int))).toNat)
        / (b * 2 ^ (-((p : Int) - 1 - ((bit_length a : Int) - (bit_length b : Int)))).toNat)
      then (p : Int) - 1 - ((bit_length a : Int) - (bit_length b : Int))
      else (p : Int) - 1 - ((bit_length a : Int) - (bit_length b : Int)) + 1) :
    (2 : ℚ) ^ (p - 1) * ((b : ℚ) * (2 : ℚ) ^ (-sh).toNat) ≤ (a : ℚ) * (2 : ℚ) ^ sh.toNat := by
  have h2 : (2 : ℚ) ≠ 0 := by norm_num
  split_ifs at hsh with c
  · rw [← hsh] at c
    have hM : 0 < b * 2 ^ (-sh).toNat := by positivity
    have := (Nat.le_div_iff_mul_le hM).mp c
    exact_mod_cast this
  · have la := bit_length_lower a ha
    have lb := le_of_lt (bit_length_upper b)
    have la1 : 0 < bit_length a := by
      by_contra h
      have : bit_length a = 0 := by omega
      have := bit_length_upper a
      simp_all
    have qa : (2 : ℚ) ^ (((bit_length a : Int)) - 1) ≤ a := by
      have : ((bit_length a : Int)) - 1 = ((bit_length a - 1 : Nat) : Int) := by omega
      rw [this, zpow_natCast]
      exact_mod_cast la
    have qb : (b : ℚ) ≤ (2 : ℚ) ^ ((bit_length b : Int)) := by
      rw [zpow_natCast]
      exact_mod_cast lb
    rw [two_pow_toNat sh]
    have hpos : (0 : ℚ) < (2 : ℚ) ^ (-sh).toNat := by positivity
    have key : (2 : ℚ) ^ (p - 1) * (b : ℚ) ≤ (a : ℚ) * (2 : ℚ) ^ sh := by
      have e1 : (2 : ℚ) ^ sh = (2 : ℚ) ^ ((p : Int) - 1) * (2 : ℚ) ^ ((bit_length b : Int))
          / (2 : ℚ) ^ (((bit_length a : Int)) - 1) := by
        rw [hsh, ← zpow_add₀ h2, ← zpow_sub₀ h2]
        congr 1
        ring
      have e3 : (2 : ℚ) ^ (p - 1) = (2 : ℚ) ^ ((p : Int) - 1) := by
        have : ((p : Int)) - 1 = ((p - 1 : Nat) : Int) := by omega
        rw [this, zpow_natCast]
      rw [e1, e3]
      have hA : (0 : ℚ) < (2 : ℚ) ^ (((bit_length a : Int)) - 1) := two_zpow_pos _
      have hPp : (0 : ℚ) < (2 : ℚ) ^ ((p : Int) - 1) := two_zpow_pos _
      rw [mul_div_assoc', le_div_iff₀ hA]
      have hbq : (0 : ℚ) ≤ b := by positivity
      nlinarith [mul_le_mul_of_nonneg_left qb (le_of_lt hPp),
        mul_le_mul_of_nonneg_left qa (mul_nonneg (le_of_lt hPp) (le_of_lt (two_zpow_pos (bit_length b : Int))))]
    nlinarith

/-- Dividing a value that is not negative by a positive one gives the exact
quotient changed by at most the fraction `2 ^ (-p)` of itself. -/
theorem val_div (p : Nat) (hp : 0 < p) (x y : Flt) (hx : 0 ≤ x.m) (hy : 0 < y.m) :
    0 ≤ (Flt.div p x y).m ∧
    (x.val / y.val) * ((2 : ℚ) ^ p - 1) ≤ (Flt.div p x y).val * (2 : ℚ) ^ p ∧
    (Flt.div p x y).val * (2 : ℚ) ^ p ≤ (x.val / y.val) * ((2 : ℚ) ^ p + 1) := by
  obtain ⟨m, e⟩ := x
  obtain ⟨n, f⟩ := y
  obtain ⟨a, rfl⟩ := Int.eq_ofNat_of_zero_le hx
  obtain ⟨b, rfl⟩ := Int.eq_ofNat_of_zero_le (le_of_lt hy)
  have hb : 0 < b := by
    have : (0 : Int) < (b : Int) := hy
    exact_mod_cast this
  have h2 : (2 : ℚ) ≠ 0 := by norm_num
  unfold Flt.div
  dsimp only
  rw [Int.natAbs_ofNat, Int.natAbs_ofNat]
  by_cases h0 : a = 0
  · rw [if_pos (Or.inl h0)]
    subst h0
    simp [Flt.val, Flt.zero]
  · rw [if_neg (by omega)]
    have ha : 0 < a := Nat.pos_of_ne_zero h0
    have hsa : ((a : Int)).sign = 1 := Int.sign_eq_one_of_pos (by exact_mod_cast ha)
    have hsb : ((b : Int)).sign = 1 := Int.sign_eq_one_of_pos hy
    rw [hsa, hsb, one_mul, one_mul]
    generalize hsh : (if 2 ^ (p - 1) ≤ (a * 2 ^ ((p : Int) - 1 - ((bit_length a : Int) - (bit_length b : Int))).toNat)
        / (b * 2 ^ (-((p : Int) - 1 - ((bit_length a : Int) - (bit_length b : Int)))).toNat)
      then (p : Int) - 1 - ((bit_length a : Int) - (bit_length b : Int))
      else (p : Int) - 1 - ((bit_length a : Int) - (bit_length b : Int)) + 1) = sh
    have low := div_scaled_lower p a b ha hb hp sh hsh.symm
    have hM : 0 < b * 2 ^ (-sh).toNat := by positivity
    obtain ⟨b1, b2⟩ := div_round_even_bounds (a * 2 ^ sh.toNat) (b * 2 ^ (-sh).toNat) hM
    generalize div_round_even (a * 2 ^ sh.toNat) (b * 2 ^ (-sh).toNat) = D at b1 b2 ⊢
    have c1 : (2 : ℚ) * (((b : ℚ) * (2 : ℚ) ^ (-sh).toNat) * D) ≤ 2 * ((a : ℚ) * (2 : ℚ) ^ sh.toNat)
        + (b : ℚ) * (2 : ℚ) ^ (-sh).toNat := by exact_mod_cast b1
    have c2 : 2 * ((a : ℚ) * (2 : ℚ) ^ sh.toNat)
        ≤ (2 : ℚ) * (((b : ℚ) * (2 : ℚ) ^ (-sh).toNat) * D) + (b : ℚ) * (2 : ℚ) ^ (-sh).toNat := by
      exact_mod_cast b2
    rw [two_pow_toNat sh] at low c1 c2
    have hT : (0 : ℚ) < (2 : ℚ) ^ (-sh).toNat := by positivity
    have hbq : (0 : ℚ) < (b : ℚ) := by exact_mod_cast hb
    have haq : (0 : ℚ) < (a : ℚ) := by exact_mod_cast ha
    have hS : (0 : ℚ) < (2 : ℚ) ^ sh := two_zpow_pos sh
    -- the same facts with the common power of two divided out
    have low1 : (2 : ℚ) ^ (p - 1) * (b : ℚ) ≤ (a : ℚ) * (2 : ℚ) ^ sh := by
      have : (2 : ℚ) ^ (p - 1) * (b : ℚ) * (2 : ℚ) ^ (-sh).toNat
          ≤ (a : ℚ) * (2 : ℚ) ^ sh * (2 : ℚ) ^ (-sh).toNat := by nlinarith
      exact le_of_mul_le_mul_right this hT
    have d1 : (2 : ℚ) * ((b : ℚ) * D) ≤ 2 * ((a : ℚ) * (2 : ℚ) ^ sh) + b := by
      have : ((2 : ℚ) * ((b : ℚ) * D)) * (2 : ℚ) ^ (-sh).toNat
          ≤ (2 * ((a : ℚ) * (2 : ℚ) ^ sh) + b) * (2 : ℚ) ^ (-sh).toNat := by nlinarith
      exact le_of_mul_le_mul_right this hT
    have d2 : 2 * ((a : ℚ) * (2 : ℚ) ^ sh) ≤ (2 : ℚ) * ((b : ℚ) * D) + b := by
      have : (2 * ((a : ℚ) * (2 : ℚ) ^ sh)) * (2 : ℚ) ^ (-sh).toNat
          ≤ ((2 : ℚ) * ((b : ℚ) * D) + b) * (2 : ℚ) ^ (-sh).toNat := by nlinarith
      exact le_of_mul_le_mul_right this hT
    have e2 : (2 : ℚ) ^ p = 2 * (2 : ℚ) ^ (p - 1) := by
      rw [← pow_succ']
      congr 1
      omega
    have hQ : (0 : ℚ) < (2 : ℚ) ^ (p - 1) := by positivity
    have hval : Flt.val ⟨((D : Nat) : Int), e - f - sh⟩
        = (D : ℚ) / (2 : ℚ) ^ sh * ((2 : ℚ) ^ e / (2 : ℚ) ^ f) := by
      rw [val_mk, zpow_sub₀ h2, zpow_sub₀ h2]
      push_cast
      ring
    have hq : Flt.val ⟨((a : Nat) : Int), e⟩ / Flt.val ⟨((b : Nat) : Int), f⟩
        = (a : ℚ) / b * ((2 : ℚ) ^ e / (2 : ℚ) ^ f) := by
      rw [val_mk, val_mk]
      push_cast
      have := two_zpow_pos f
      field_simp
    rw [hval, hq]
    have hEF : (0 : ℚ) < (2 : ℚ) ^ e / (2 : ℚ) ^ f := div_pos (two_zpow_pos e) (two_zpow_pos f)
    have hD : (0 : ℚ) ≤ (D : ℚ) := by positivity
    have k1 : (a : ℚ) / b * ((2 : ℚ) ^ p - 1) ≤ (D : ℚ) / (2 : ℚ) ^ sh * (2 : ℚ) ^ p := by
      rw [div_mul_eq_mul_div, div_mul_eq_mul_div, div_le_div_iff₀ hbq hS, e2]
      nlinarith
    have k2 : (D : ℚ) / (2 : ℚ) ^ sh * (2 : ℚ) ^ p ≤ (a : ℚ) / b * ((2 : ℚ) ^ p + 1) := by
      rw [div_mul_eq_mul_div, div_mul_eq_mul_div, div_le_div_iff₀ hS hbq, e2]
      nlinarith
    generalize (2 : ℚ) ^ e / (2 : ℚ) ^ f = EF at hEF ⊢
    refine ⟨by positivity, ?_, ?_⟩
    · have := mul_le_mul_of_nonneg_right k1 (le_of_lt hEF)
      linarith
    · have := mul_le_mul_of_nonneg_right k2 (le_of_lt hEF)
      linarith


/-! ## Conversions to integers and exact values of the arguments -/

theorem val_floor (x : Flt) : Flt.floor x = ⌊x.val⌋ := by
  obtain ⟨m, e⟩ := x
  unfold Flt.floor
  dsimp only
  rw [val_mk]
  split_ifs with h
  · have e1 : (2 : ℚ) ^ e = (((2 : Int) ^ e.toNat : Int) : ℚ) := by
      push_cast
      rw [← zpow_natCast, Int.toNat_of_nonneg h]
    rw [e1, ← Int.cast_mul, Int.floor_intCast]
  · have e1 : (2 : ℚ) ^ e = 1 / (((2 ^ (-e).toNat : Nat)) : ℚ) := by
      push_cast
      rw [← zpow_natCast, Int.toNat_of_nonneg (by omega), zpow_neg]
      simp
    rw [e1, mul_one_div, Rat.floor_intCast_div_natCast]
    push_cast
    rfl

theorem val_trunc (x : Flt) (h : 0 ≤ x.m) : Flt.trunc x = ⌊x.val⌋ := by
  unfold Flt.trunc
  rw [if_pos h, val_floor]

theorem val_mul_exact (x y : Flt) :
    Flt.val ⟨x.m * y.m, x.e + y.e⟩ = x.val * y.val := by
  rw [val_mk, Flt.val, Flt.val, zpow_add₀ (by norm_num : (2 : ℚ) ≠ 0)]
  push_cast
  ring

theorem val_add_exact (x y : Flt) :
    Flt.val ⟨x.m * 2 ^ (x.e - min x.e y.e).toNat + y.m * 2 ^ (y.e - min x.e y.e).toNat, min x.e y.e⟩
      = x.val + y.val := by
  have h2 : (2 : ℚ) ≠ 0 := by norm_num
  rw [val_mk, Flt.val, Flt.val]
  push_cast
  have e1 : (2 : ℚ) ^ (x.e - min x.e y.e).toNat * (2 : ℚ) ^ (min x.e y.e) = (2 : ℚ) ^ x.e := by
    rw [← zpow_natCast, Int.toNat_of_nonneg (by omega), ← zpow_add₀ h2]
    congr 1
    ring
  have e2 : (2 : ℚ) ^ (y.e - min x.e y.e).toNat * (2 : ℚ) ^ (min x.e y.e) = (2 : ℚ) ^ y.e := by
    rw [← zpow_natCast, Int.toNat_of_nonneg (by omega), ← zpow_add₀ h2]
    congr 1
    ring
  rw [add_mul, mul_assoc, mul_assoc, e1, e2]

theorem val_neg (x : Flt) : Flt.val ⟨-x.m, x.e⟩ = -x.val := by
  rw [val_mk, Flt.val]
  push_cast
  ring

/-- The product of two values that are not negative, with its rounding error. -/
theorem val_mul (p : Nat) (hp : 0 < p) (x y : Flt) (hx : 0 ≤ x.m) (hy : 0 ≤ y.m) :
    0 ≤ (Flt.mul p x y).m ∧
    (x.val * y.val) * ((2 : ℚ) ^ p - 1) ≤ (Flt.mul p x y).val * (2 : ℚ) ^ p ∧
    (Flt.mul p x y).val * (2 : ℚ) ^ p ≤ (x.val * y.val) * ((2 : ℚ) ^ p + 1) := by
  have h := val_round p hp ⟨x.m * y.m, x.e + y.e⟩ (mul_nonneg hx hy)
  rw [val_mul_exact] at h
  exact h

/-- The sum of two values that are not negative, with its rounding error. -/
theorem val_add (p : Nat) (hp : 0 < p) (x y : Flt) (hx : 0 ≤ x.m) (hy : 0 ≤ y.m) :
    0 ≤ (Flt.add p x y).m ∧
    (x.val + y.val) * ((2 : ℚ) ^ p - 1) ≤ (Flt.add p x y).val * (2 : ℚ) ^ p ∧
    (Flt.add p x y).val * (2 : ℚ) ^ p ≤ (x.val + y.val) * ((2 : ℚ) ^ p + 1) := by
  have h := val_round p hp
    ⟨x.m * 2 ^ (x.e - min x.e y.e).toNat + y.m * 2 ^ (y.e - min x.e y.e).toNat, min x.e y.e⟩
    (add_nonneg (mul_nonneg hx (by positivity)) (mul_nonneg hy (by positivity)))
  rw [val_add_exact] at h
  exact h

/-- The difference of two values, the first not below the second, with its
rounding error. -/
theorem val_sub (p : Nat) (hp : 0 < p) (x y : Flt) (hxy : y.val ≤ x.val) :
    0 ≤ (Flt.sub p x y).m ∧
    (x.val - y.val) * ((2 : ℚ) ^ p - 1) ≤ (Flt.sub p x y).val * (2 : ℚ) ^ p ∧
    (Flt.sub p x y).val * (2 : ℚ) ^ p ≤ (x.val - y.val) * ((2 : ℚ) ^ p + 1) := by
  have hv := val_add_exact x ⟨-y.m, y.e⟩
  rw [val_neg] at hv
  have hm : 0 ≤ (⟨x.m * 2 ^ (x.e - min x.e y.e).toNat + -y.m * 2 ^ (y.e - min x.e y.e).toNat,
      min x.e y.e⟩ : Flt).m := by
    apply m_nonneg_of_val
    rw [hv]
    linarith
  have h := val_round p hp _ hm
  rw [hv, ← sub_eq_add_neg] at h
  exact h


/-! ## The progress value -/

theorem to_i32_of_range (x : Flt) (h0 : 0 ≤ Flt.trunc x) (h1 : Flt.trunc x < 2147483648) :
    Flt.to_i32 x = Flt.trunc x := by
  unfold Flt.to_i32
  omega

/-- The progress value is the integer part of a rational number within two
roundings of `255 * d / 350`. -/
theorem progress_val (d : Nat) (hd : d < 2147483648) :
    ∃ v : ℚ, led.progress d = ⌊v⌋ ∧
      ((d : ℚ) * 255 / 350) * ((2 : ℚ) ^ 53 - 1) ^ 2 ≤ v * ((2 : ℚ) ^ 53) ^ 2 ∧
      v * ((2 : ℚ) ^ 53) ^ 2 ≤ ((d : ℚ) * 255 / 350) * ((2 : ℚ) ^ 53 + 1) ^ 2 := by
  have e1 : Flt.ofInt 53 (d : Int) = ⟨(d : Int), 0⟩ :=
    flt_ofInt_small 53 d (by rw [Int.natAbs_ofNat]; omega)
  have e2 : Flt.ofInt 53 led.ANIMATE_SPEED = ⟨350, 0⟩ := by decide
  have e3 : Flt.ofInt 53 255 = ⟨255, 0⟩ := by decide
  unfold led.progress
  rw [e1, e2, e3]
  obtain ⟨q0, q1, q2⟩ := val_div 53 (by norm_num) ⟨(d : Int), 0⟩ ⟨350, 0⟩
    (by show (0 : Int) ≤ (d : Int); omega) (by show (0 : Int) < 350; norm_num)
  obtain ⟨p0, p1, p2⟩ := val_mul 53 (by norm_num) (Flt.div 53 ⟨(d : Int), 0⟩ ⟨350, 0⟩) ⟨255, 0⟩ q0
    (by show (0 : Int) ≤ 255; norm_num)
  have v1 : Flt.val ⟨(d : Int), 0⟩ = (d : ℚ) := by simp [Flt.val]
  have v2 : Flt.val ⟨350, 0⟩ = 350 := by simp [Flt.val]
  have v3 : Flt.val ⟨255, 0⟩ = 255 := by simp [Flt.val]
  rw [v1, v2] at q1 q2
  rw [v3] at p1 p2
  generalize Flt.div 53 ⟨(d : Int), 0⟩ ⟨350, 0⟩ = Q at q0 q1 q2 p0 p1 p2 ⊢
  generalize hP : Flt.mul 53 Q ⟨255, 0⟩ = P at p0 p1 p2 ⊢
  have hdq : (d : ℚ) < 2147483648 := by exact_mod_cast hd
  have hd0 : (0 : ℚ) ≤ (d : ℚ) := by positivity
  norm_num at q1 q2 p1 p2 ⊢
  have b1 : (d : ℚ) * 255 / 350 * 81129638414606663681390495662081 ≤ P.val * 81129638414606681695789005144064 := by
    linarith
  have b2 : P.val * 81129638414606681695789005144064 ≤ (d : ℚ) * 255 / 350 * 81129638414606699710187514626049 := by
    linarith
  have t0 : Flt.trunc P = ⌊P.val⌋ := val_trunc P p0
  have t1 : (0 : Int) ≤ ⌊P.val⌋ := Int.floor_nonneg.mpr (val_nonneg P p0)
  have t2 : ⌊P.val⌋ < 2147483648 := by
    rw [Int.floor_lt]
    push_cast
    linarith
  refine ⟨P.val, ?_, b1, b2⟩
  rw [to_i32_of_range P (by rw [t0]; exact t1) (by rw [t0]; exact t2), t0]

theorem progress_mono (d1 d2 : Nat) (h : d1 ≤ d2) (h2 : d2 < 2147483648) :
    led.progress d1 ≤ led.progress d2 := by
  rcases Nat.eq_or_lt_of_le h with h3 | h3
  · rw [h3]
  · obtain ⟨v1, e1, _, u1⟩ := progress_val d1 (by omega)
    obtain ⟨v2, e2, l2, _⟩ := progress_val d2 h2
    rw [e1, e2]
    apply Int.floor_le_floor
    have c1 : (d1 : ℚ) + 1 ≤ (d2 : ℚ) := by exact_mod_cast h3
    have c2 : (d2 : ℚ) < 2147483648 := by exact_mod_cast h2
    norm_num at u1 l2
    linarith

theorem progress_nonneg (d : Nat) (h : d < 2147483648) : 0 ≤ led.progress d := by
  have h0 : led.progress 0 = 0 := by decide
  have := progress_mono 0 d (Nat.zero_le d) h
  omega

theorem progress_below_iff (d : Nat) (h : d < 2147483648) : led.progress d < 255 ↔ d < 350 := by
  have h349 : led.progress 349 = 254 := by decide
  have h350 : led.progress 350 = 255 := by decide
  constructor
  · intro hp
    by_contra hc
    have := progress_mono 350 d (by omega) h
    omega
  · intro hd
    have := progress_mono d 349 (by omega) (by norm_num)
    omega

theorem elapsed_at (s : State) (now : Nat)
    (h1 : s.animating_start_ms ≤ now) (h2 : (now : Int) - s.animating_start_ms < 2147483648) :
    ((led.elapsed { s with hw := { s.hw with millis := now } } : Nat) : Int)
      = (now : Int) - s.animating_start_ms := by
  unfold led.elapsed
  dsimp only
  omega

theorem animate_step_stores (s : State) (hp : led.progress (led.elapsed s) < 255) :
    (led.animate_step s).animating_delta_current = led.progress (led.elapsed s) := by
  unfold led.animate_step
  dsimp only
  generalize led.progress (led.elapsed s) = p at hp ⊢
  split_ifs with c1 c2
  · omega
  · rfl
  · rfl

/-- The value that a tick stores while it stays below 255. -/
theorem tick_stores_progress (s : State) (now : Nat) (ha : s.animating = true)
    (hp : led.progress (led.elapsed { s with hw := { s.hw with millis := now } }) < 255) :
    (led.tick now s).animating_delta_current
      = led.progress (led.elapsed { s with hw := { s.hw with millis := now } }) := by
  unfold led.tick led.loop
  rw [if_pos ha]
  exact animate_step_stores _ hp

/-- C14, as the claim states it, fails: 352 ms after the start of the session
the progress value that the tick computes is 256, above 255. -/
theorem progress_not_clamped :
    led.elapsed late_state = 352 ∧ led.progress (led.elapsed late_state) = 256
      ∧ ¬ led.progress (led.elapsed late_state) ≤ 255 := by
  decide

/-- C14 (amended): for a fixed start of the session and clock readings
`start ≤ now1 ≤ now2` less than `2 ^ 31` ms after it, the progress value of
the tick, `((now - start) / 350) * 255` in double converted to `int`, is not
negative and does not decrease with time; it is not clamped, being below 255
exactly while `now - start < 350`; a tick of an active session that computes a
value below 255 stores it. -/
theorem progress_nondecreasing (s : State) (now1 now2 : Nat)
    (h1 : s.animating_start_ms ≤ now1) (h2 : now1 ≤ now2)
    (h3 : (now2 : Int) - s.animating_start_ms < 2147483648) :
    0 ≤ led.progress (led.elapsed { s with hw := { s.hw with millis := now1 } }) ∧
    led.progress (led.elapsed { s with hw := { s.hw with millis := now1 } })
      ≤ led.progress (led.elapsed { s with hw := { s.hw with millis := now2 } }) ∧
    (led.progress (led.elapsed { s with hw := { s.hw with millis := now1 } }) < 255
      ↔ (now1 : Int) - s.animating_start_ms < 350) ∧
    (s.animating = true →
      led.progress (led.elapsed { s with hw := { s.hw with millis := now1 } }) < 255 →
      (led.tick now1 s).animating_delta_current
        = led.progress (led.elapsed { s with hw := { s.hw with millis := now1 } })) := by
  have e1 := elapsed_at s now1 h1 (by omega)
  have e2 := elapsed_at s now2 (by omega) h3
  have h4 := tick_stores_progress s now1
  generalize led.elapsed { s with hw := { s.hw with millis := now1 } } = d1 at e1 h4 ⊢
  generalize led.elapsed { s with hw := { s.hw with millis := now2 } } = d2 at e2 ⊢
  have b2 : d2 < 2147483648 := by omega
  have b1 : d1 ≤ d2 := by omega
  refine ⟨progress_nonneg d1 (by omega), progress_mono d1 d2 b1 b2, ?_, ?_⟩
  · rw [progress_below_iff d1 (by omega)]
    omega
  · exact h4

/-- C14 on the fading device, whose session started at the reading 4860: the
progress value at the reading 5100 is at most the one at the reading 5212. -/
theorem progress_nondecreasing_witness :
    fading_state.animating_start_ms = 4860 ∧
      led.progress (led.elapsed { fading_state with hw := { fading_state.hw with millis := 5100 } })
        ≤ led.progress
          (led.elapsed { fading_state with hw := { fading_state.hw with millis := 5212 } }) :=
  ⟨rfl, (progress_nondecreasing fading_state 5100 5212 (by decide) (by decide) (by decide)).2.1⟩

/-! ## The tick that ends a session -/

theorem strip_write_show_fields (s : State) :
    (led.strip_write_show s).pixels_current = s.pixels_current ∧
    (led.strip_write_show s).pixels_previous = s.pixels_previous ∧
    (led.strip_write_show s).pixels_target = s.pixels_target ∧
    (led.strip_write_show s).colors_target = s.colors_target ∧
    (led.strip_write_show s).animating = s.animating ∧
    (led.strip_write_show s).animating_delta_previous = s.animating_delta_previous :=
  ⟨rfl, rfl, rfl, rfl, rfl, rfl⟩

/-- The step of a session whose progress value has reached 255. -/
theorem animate_step_finish (s : State) (hp : 255 ≤ led.progress (led.elapsed s))
    (hq : s.animating_delta_previous < 255) :
    (∀ i : Nat, (i : Int) < led.get_count s →
      (led.animate_step s).pixels_current i = s.pixels_target i) ∧
    (led.animate_step s).pixels_target = s.pixels_target ∧
    (led.animate_step s).pixels_previous = s.pixels_previous ∧
    (led.animate_step s).animating = false := by
  unfold led.animate_step
  dsimp only
  generalize led.progress (led.elapsed s) = p at hp ⊢
  rw [if_pos (by omega), if_pos (by omega)]
  refine ⟨?_, rfl, rfl, rfl⟩
  intro i hi
  have hi2 : i < (led.get_count s).toNat := by omega
  show write_loop _ (led.get_count s).toNat _ i = _
  rw [write_loop_apply, if_pos hi2]

/-- A tick of a device with no active session changes the clock reading only. -/
theorem tick_idle (now : Nat) (s : State) (h : s.animating = false) :
    led.tick now s = { s with hw := { s.hw with millis := now } } := by
  unfold led.tick led.loop
  rw [if_neg (by simp [h])]

theorem ticks_idle (nows : List Nat) :
    ∀ s : State, s.animating = false →
      (led.ticks nows s).pixels_current = s.pixels_current ∧
      (led.ticks nows s).pixels_previous = s.pixels_previous ∧
      (led.ticks nows s).pixels_target = s.pixels_target ∧
      (led.ticks nows s).colors_target = s.colors_target ∧
      (led.ticks nows s).strip = s.strip ∧
      (led.ticks nows s).animating = false := by
  induction nows with
  | nil => intro s h; exact ⟨rfl, rfl, rfl, rfl, rfl, h⟩
  | cons now rest ih =>
    intro s h
    have e : led.ticks (now :: rest) s = led.ticks rest (led.tick now s) := rfl
    rw [e, tick_idle now s h]
    exact ih _ h

/-- The stored progress value stays below 255 over every tick. -/
theorem tick_keeps_delta_previous_below (now : Nat) (s : State)
    (h : s.animating_delta_previous < 255) :
    (led.tick now s).animating_delta_previous < 255 := by
  unfold led.tick led.loop
  dsimp only
  split_ifs with ha
  · unfold led.animate_step
    dsimp only
    split_ifs with c1 c2
    · show (0 : Int) < 255
      norm_num
    · show led.progress _ < 255
      omega
    · exact h
  · exact h

/-- C13: a tick of an active session made 350 ms or more after its start (and
less than `2 ^ 31` ms after it), the stored progress value being below 255 as
it is after every tick, leaves `pixels_current[i]` equal to `pixels_target[i]`
for every `i` below the LED count and the session inactive; the ticks after it
write no pixel buffer, do not touch the strip and start no session. -/
theorem finished_session_settles (s : State) (now : Nat)
    (ha : s.animating = true)
    (h1 : 350 ≤ led.elapsed { s with hw := { s.hw with millis := now } })
    (h2 : led.elapsed { s with hw := { s.hw with millis := now } } < 2147483648)
    (h3 : s.animating_delta_previous < 255) :
    (∀ i : Nat, (i : Int) < led.get_count s →
      (led.tick now s).pixels_current i = (led.tick now s).pixels_target i) ∧
    (led.tick now s).pixels_target = s.pixels_target ∧
    (led.tick now s).animating = false ∧
    ∀ nows : List Nat,
      (led.ticks nows (led.tick now s)).pixels_current = (led.tick now s).pixels_current ∧
      (led.ticks nows (led.tick now s)).pixels_previous = (led.tick now s).pixels_previous ∧
      (led.ticks nows (led.tick now s)).pixels_target = (led.tick now s).pixels_target ∧
      (led.ticks nows (led.tick now s)).colors_target = (led.tick now s).colors_target ∧
      (led.ticks nows (led.tick now s)).strip = (led.tick now s).strip ∧
      (led.ticks nows (led.tick now s)).animating = false := by
  have hp : 255 ≤ led.progress (led.elapsed { s with hw := { s.hw with millis := now } }) := by
    have := (progress_below_iff _ h2).not.mpr (by omega)
    omega
  have e : led.tick now s = led.animate_step { s with hw := { s.hw with millis := now } } := by
    unfold led.tick led.loop
    rw [if_pos ha]
  obtain ⟨f1, f2, _, f4⟩ := animate_step_finish { s with hw := { s.hw with millis := now } } hp h3
  rw [e]
  refine ⟨?_, f2, f4, fun nows => ticks_idle nows _ f4⟩
  intro i hi
  rw [f1 i hi, f2]

/-- C13 on the fading device: the tick at the reading 5212, which is 352 ms
after the start, leaves pixel 0 on its target and the session inactive. -/
theorem finished_session_settles_witness :
    fading_state.animating = true ∧
      led.elapsed { fading_state with hw := { fading_state.hw with millis := 5212 } } = 352 ∧
      (led.tick 5212 fading_state).pixels_current 0 = (led.tick 5212 fading_state).pixels_target 0 ∧
      (led.tick 5212 fading_state).animating = false :=
  ⟨rfl, rfl,
    (finished_session_settles fading_state 5212 rfl (by decide) (by decide) (by decide)).1 0
      (by decide),
    (finished_session_settles fading_state 5212 rfl (by decide) (by decide) (by decide)).2.2.1⟩

theorem setup_keeps_delta_previous (s : State) :
    (led.setup s).animating_delta_previous = s.animating_delta_previous := by
  unfold led.setup
  rfl

theorem set_type_keeps_delta_previous (t : String) (s : State) :
    (led.set_type t s).2.animating_delta_previous = s.animating_delta_previous := by
  unfold led.set_type
  split_ifs
  · exact setup_keeps_delta_previous _
  · exact setup_keeps_delta_previous _
  · rfl

/-- No command writes the stored progress value, so it stays below 255 from
one tick to the next. -/
theorem handle_request_keeps_delta_previous (pf : Platform) (id : Int) (method : String)
    (params : Json) (s : State) :
    (handle_request pf id method params s).2.animating_delta_previous
      = s.animating_delta_previous := by
  show (call_method pf method params s).2.animating_delta_previous = _
  apply call_method_cases (fun r => r.2.animating_delta_previous = s.animating_delta_previous)
  all_goals first
    | rfl
    | (unfold wifi.api.connect; dsimp only; split_ifs <;> rfl)
    | (unfold led.api.set_count; dsimp only; split_ifs <;> rfl)
    | (unfold led.api.set_pin; dsimp only; split_ifs <;> rfl)
    | (rw [api_set_type_eq]; split_ifs <;> first | rfl | exact set_type_keeps_delta_previous _ _)
    | (unfold led.api.set_on; split_ifs <;> rfl)
    | (unfold led.api.set_color; dsimp only; split_ifs <;> rfl)
    | (unfold led.api.set_gradient; dsimp only; split_ifs <;> rfl)
    | (unfold led.api.set_brightness; dsimp only; split_ifs <;> rfl)
    | (unfold sys.api.set_name; dsimp only; split_ifs <;> rfl)

/-! ## The interpolation of a step -/

/-- The five roundings of the interpolation move its value by less than
`2 ^ (-20)`. -/
theorem step_error (a b t δ ω A B S : ℚ)
    (ha0 : 0 ≤ a) (ha : a ≤ 255) (hb0 : 0 ≤ b) (hb : b ≤ 255) (ht0 : 0 ≤ t) (ht1 : t ≤ 254 / 255)
    (d1 : t * ((2 : ℚ) ^ 53 - 1) ≤ δ * (2 : ℚ) ^ 53) (d2 : δ * (2 : ℚ) ^ 53 ≤ t * ((2 : ℚ) ^ 53 + 1))
    (w1 : (1 - δ) * ((2 : ℚ) ^ 53 - 1) ≤ ω * (2 : ℚ) ^ 53)
    (w2 : ω * (2 : ℚ) ^ 53 ≤ (1 - δ) * ((2 : ℚ) ^ 53 + 1))
    (A1 : (a * ω) * ((2 : ℚ) ^ 53 - 1) ≤ A * (2 : ℚ) ^ 53)
    (A2 : A * (2 : ℚ) ^ 53 ≤ (a * ω) * ((2 : ℚ) ^ 53 + 1))
    (B1 : (b * δ) * ((2 : ℚ) ^ 53 - 1) ≤ B * (2 : ℚ) ^ 53)
    (B2 : B * (2 : ℚ) ^ 53 ≤ (b * δ) * ((2 : ℚ) ^ 53 + 1))
    (S1 : (A + B) * ((2 : ℚ) ^ 53 - 1) ≤ S * (2 : ℚ) ^ 53)
    (S2 : S * (2 : ℚ) ^ 53 ≤ (A + B) * ((2 : ℚ) ^ 53 + 1)) :
    a * (1 - t) + b * t - 1 / 1048576 < S ∧ S < a * (1 - t) + b * t + 1 / 1048576 := by
  norm_num at d1 d2 w1 w2 A1 A2 B1 B2 S1 S2
  have hd0 : 0 ≤ δ := by linarith
  have hd1 : δ ≤ t + 1 / 9007199254740992 := by linarith
  have hd2 : t - 1 / 9007199254740992 ≤ δ := by linarith
  have hw0 : 0 ≤ ω := by linarith
  have hw1 : ω ≤ 1 - t + 2 / 9007199254740992 := by linarith
  have hw2 : 1 - t - 2 / 9007199254740992 ≤ ω := by linarith
  have hat : 0 ≤ a * t := mul_nonneg ha0 ht0
  have hbt : 0 ≤ b * t := mul_nonneg hb0 ht0
  have hat1 : a * t ≤ a := by nlinarith
  have hbt1 : b * t ≤ b := by nlinarith
  have haw0 : 0 ≤ a * ω := mul_nonneg ha0 hw0
  have hbd0 : 0 ≤ b * δ := mul_nonneg hb0 hd0
  have haw1 := mul_le_mul_of_nonneg_left hw1 ha0
  have haw2 := mul_le_mul_of_nonneg_left hw2 ha0
  have hbd1 := mul_le_mul_of_nonneg_left hd1 hb0
  have hbd2 := mul_le_mul_of_nonneg_left hd2 hb0
  have hA1 : A ≤ a * ω + 256 / 9007199254740992 := by linarith
  have hA2 : a * ω - 256 / 9007199254740992 ≤ A := by linarith
  have hB1 : B ≤ b * δ + 256 / 9007199254740992 := by linarith
  have hB2 : b * δ - 256 / 9007199254740992 ≤ B := by linarith
  have hAB0 : 0 ≤ A + B := by linarith
  have hAB1 : A + B ≤ 512 := by linarith
  constructor <;> linarith


theorem to_u8_of_range (x : Flt) (h0 : 0 ≤ Flt.trunc x) (h1 : Flt.trunc x < 256) :
    ((Flt.to_u8 x : Nat) : Int) = Flt.trunc x := by
  unfold Flt.to_u8
  omega

/-- One channel of the interpolation, in double, is the exact truncated value
or one less. -/
theorem step_channel_near (a b n : Nat) (ha : a ≤ 255) (hb : b ≤ 255) (hn : n < 255) :
    led.step_channel a b (n : Int) = spec_step_channel a b n ∨
      led.step_channel a b (n : Int) + 1 = spec_step_channel a b n := by
  have e1 : Flt.ofInt 53 (n : Int) = ⟨(n : Int), 0⟩ :=
    flt_ofInt_small 53 n (by rw [Int.natAbs_ofNat]; omega)
  have e2 : Flt.ofInt 53 (a : Int) = ⟨(a : Int), 0⟩ :=
    flt_ofInt_small 53 a (by rw [Int.natAbs_ofNat]; omega)
  have e3 : Flt.ofInt 53 (b : Int) = ⟨(b : Int), 0⟩ :=
    flt_ofInt_small 53 b (by rw [Int.natAbs_ofNat]; omega)
  have e4 : Flt.ofInt 53 255 = ⟨255, 0⟩ := by decide
  have e5 : Flt.ofInt 53 1 = ⟨1, 0⟩ := by decide
  unfold led.step_channel
  dsimp only
  rw [e1, e2, e3, e4, e5]
  have hK : (0 : ℚ) < (2 : ℚ) ^ 53 := by positivity
  have vn : Flt.val ⟨(n : Int), 0⟩ = (n : ℚ) := by simp [Flt.val]
  have va : Flt.val ⟨(a : Int), 0⟩ = (a : ℚ) := by simp [Flt.val]
  have vb : Flt.val ⟨(b : Int), 0⟩ = (b : ℚ) := by simp [Flt.val]
  have v255 : Flt.val ⟨255, 0⟩ = 255 := by simp [Flt.val]
  have v1 : Flt.val ⟨1, 0⟩ = 1 := by simp [Flt.val]
  have hnq : (n : ℚ) ≤ 254 := by exact_mod_cast Nat.le_of_lt_succ hn
  have hn0 : (0 : ℚ) ≤ (n : ℚ) := by positivity
  have haq : (a : ℚ) ≤ 255 := by exact_mod_cast ha
  have hbq : (b : ℚ) ≤ 255 := by exact_mod_cast hb
  have ha0 : (0 : ℚ) ≤ (a : ℚ) := by positivity
  have hb0 : (0 : ℚ) ≤ (b : ℚ) := by positivity
  obtain ⟨d0, d1, d2⟩ := val_div 53 (by norm_num) ⟨(n : Int), 0⟩ ⟨255, 0⟩
    (by show (0 : Int) ≤ (n : Int); omega) (by show (0 : Int) < 255; norm_num)
  rw [vn, v255] at d1 d2
  generalize Flt.div 53 ⟨(n : Int), 0⟩ ⟨255, 0⟩ = δ at d0 d1 d2 ⊢
  have hδ1 : δ.val ≤ Flt.val ⟨1, 0⟩ := by
    rw [v1]
    have : δ.val * (2 : ℚ) ^ 53 ≤ 1 * (2 : ℚ) ^ 53 := by
      norm_num at d2 ⊢
      linarith
    exact le_of_mul_le_mul_right this hK
  obtain ⟨w0, w1, w2⟩ := val_sub 53 (by norm_num) ⟨1, 0⟩ δ hδ1
  rw [v1] at w1 w2
  generalize Flt.sub 53 ⟨1, 0⟩ δ = ω at w0 w1 w2 ⊢
  obtain ⟨A0, A1, A2⟩ := val_mul 53 (by norm_num) ⟨(a : Int), 0⟩ ω
    (by show (0 : Int) ≤ (a : Int); omega) w0
  obtain ⟨B0, B1, B2⟩ := val_mul 53 (by norm_num) ⟨(b : Int), 0⟩ δ
    (by show (0 : Int) ≤ (b : Int); omega) d0
  rw [va] at A1 A2
  rw [vb] at B1 B2
  generalize Flt.mul 53 ⟨(a : Int), 0⟩ ω = A at A0 A1 A2 ⊢
  generalize Flt.mul 53 ⟨(b : Int), 0⟩ δ = B at B0 B1 B2 ⊢
  obtain ⟨S0, S1, S2⟩ := val_add 53 (by norm_num) A B A0 B0
  generalize Flt.add 53 A B = S at S0 S1 S2 ⊢
  obtain ⟨lo, hi⟩ := step_error (a : ℚ) (b : ℚ) ((n : ℚ) / 255) δ.val ω.val A.val B.val S.val
    ha0 haq hb0 hbq (by positivity) (by linarith) d1 d2 w1 w2 A1 A2 B1 B2 S1 S2
  -- the exact value is a multiple of 1 / 255
  have hN : 255 * spec_step_channel a b n + (a * (255 - n) + b * n) % 255
      = a * (255 - n) + b * n := Nat.div_add_mod _ 255
  have hmod : (a * (255 - n) + b * n) % 255 < 255 := Nat.mod_lt _ (by norm_num)
  generalize (a * (255 - n) + b * n) % 255 = r at hN hmod
  generalize spec_step_channel a b n = e at hN ⊢
  have hsub : ((255 - n : Nat) : ℚ) = 255 - (n : ℚ) := by
    rw [Nat.cast_sub (by omega)]
    norm_num
  have hNq : (255 : ℚ) * e + r = a * (255 - (n : ℚ)) + b * n := by
    rw [← hsub]
    exact_mod_cast hN
  have hrq : (r : ℚ) ≤ 254 := by exact_mod_cast Nat.le_of_lt_succ hmod
  have hr0 : (0 : ℚ) ≤ (r : ℚ) := by positivity
  have hX : (a : ℚ) * (1 - (n : ℚ) / 255) + b * ((n : ℚ) / 255) = (e : ℚ) + r / 255 := by
    field_simp
    linarith
  rw [hX] at lo hi
  have hfl : Flt.trunc S = ⌊S.val⌋ := val_trunc S S0
  have f0 : (0 : Int) ≤ ⌊S.val⌋ := Int.floor_nonneg.mpr (val_nonneg S S0)
  have f1 : ⌊S.val⌋ < (e : Int) + 1 := by
    rw [Int.floor_lt]
    push_cast
    linarith
  have f2 : (e : Int) - 1 ≤ ⌊S.val⌋ := by
    rw [Int.le_floor]
    push_cast
    linarith
  have he : e ≤ 255 := by
    have : a * (255 - n) + b * n ≤ 255 * (255 - n) + 255 * n :=
      Nat.add_le_add (Nat.mul_le_mul_right _ ha) (Nat.mul_le_mul_right _ hb)
    omega
  have hu := to_u8_of_range S (by rw [hfl]; exact f0) (by rw [hfl]; omega)
  rw [hfl] at hu
  omega

theorem spec_step_channel_bounds (a b n : Nat) (hn : n ≤ 255) :
    min a b ≤ spec_step_channel a b n ∧ spec_step_channel a b n ≤ max a b := by
  unfold spec_step_channel
  obtain ⟨k, hk⟩ : ∃ k, 255 - n = k := ⟨_, rfl⟩
  have h255 : 255 = k + n := by omega
  rw [hk]
  constructor
  · rw [Nat.le_div_iff_mul_le (by norm_num)]
    have h1 : min a b * k ≤ a * k := Nat.mul_le_mul_right _ (Nat.min_le_left a b)
    have h2 : min a b * n ≤ b * n := Nat.mul_le_mul_right _ (Nat.min_le_right a b)
    calc min a b * 255 = min a b * k + min a b * n := by rw [h255, Nat.mul_add]
      _ ≤ a * k + b * n := Nat.add_le_add h1 h2
  · apply Nat.div_le_of_le_mul
    have h1 : a * k ≤ max a b * k := Nat.mul_le_mul_right _ (Nat.le_max_left a b)
    have h2 : b * n ≤ max a b * n := Nat.mul_le_mul_right _ (Nat.le_max_right a b)
    calc a * k + b * n ≤ max a b * k + max a b * n := Nat.add_le_add h1 h2
      _ = 255 * max a b := by rw [← Nat.mul_add, ← h255, Nat.mul_comm]

/-- The step of a session whose progress value is new and below 255. -/
theorem animate_step_mix (s : State) (hp : led.progress (led.elapsed s) < 255)
    (hne : s.animating_delta_previous ≠ led.progress (led.elapsed s)) (i : Nat)
    (hi : (i : Int) < led.get_count s) :
    (led.animate_step s).pixels_current i
      = led.step_color (s.pixels_previous i) (s.pixels_target i)
          (led.progress (led.elapsed s)) := by
  unfold led.animate_step
  dsimp only
  generalize led.progress (led.elapsed s) = p at hp hne ⊢
  rw [if_pos hne, if_neg (by omega)]
  have hi2 : i < (led.get_count s).toNat := by omega
  show write_loop _ (led.get_count s).toNat _ i = _
  rw [write_loop_apply, if_pos hi2]

/-- C19, as the claim states it, fails: 7 ms into a fade, at the progress
value 5, the white channel of pixel 0, which is 3 before and after the fade, is
written as 2; the exact value truncated is 3. -/
theorem step_lowers_unchanged_channel :
    (steady_state.pixels_previous 0).w = 3 ∧ (steady_state.pixels_target 0).w = 3 ∧
      led.progress (led.elapsed steady_state) = 5 ∧
      ((led.tick 5007 steady_state).pixels_current 0).w = 2 ∧
      spec_step_channel 3 3 5 = 3 := by
  decide

/-- C19 (amended): a tick of an active session that computes a new progress
value `p` with `0 ≤ p < 255` writes to every pixel below the LED count, channel
by channel, the expression `previous * (1 - p / 255) + target * (p / 255)`
evaluated in double and truncated; for channels of at most 255 that is the
exact value truncated or one less, so it lies between
`min previous target - 1` and `max previous target`. -/
theorem step_within_one_of_exact (s : State) (now i : Nat) (ch : ColorRGBW → Nat)
    (hch : ch = ColorRGBW.r ∨ ch = ColorRGBW.g ∨ ch = ColorRGBW.b ∨ ch = ColorRGBW.w)
    (ha : s.animating = true)
    (hp0 : 0 ≤ led.progress (led.elapsed { s with hw := { s.hw with millis := now } }))
    (hp1 : led.progress (led.elapsed { s with hw := { s.hw with millis := now } }) < 255)
    (hne : s.animating_delta_previous
      ≠ led.progress (led.elapsed { s with hw := { s.hw with millis := now } }))
    (hi : (i : Int) < led.get_count s)
    (hprev : ch (s.pixels_previous i) ≤ 255) (htar : ch (s.pixels_target i) ≤ 255) :
    (led.tick now s).pixels_current i
      = led.step_color (s.pixels_previous i) (s.pixels_target i)
          (led.progress (led.elapsed { s with hw := { s.hw with millis := now } })) ∧
    (ch ((led.tick now s).pixels_current i)
        = spec_step_channel (ch (s.pixels_previous i)) (ch (s.pixels_target i))
            (led.progress (led.elapsed { s with hw := { s.hw with millis := now } })).toNat ∨
      ch ((led.tick now s).pixels_current i) + 1
        = spec_step_channel (ch (s.pixels_previous i)) (ch (s.pixels_target i))
            (led.progress (led.elapsed { s with hw := { s.hw with millis := now } })).toNat) ∧
    min (ch (s.pixels_previous i)) (ch (s.pixels_target i))
      ≤ ch ((led.tick now s).pixels_current i) + 1 ∧
    ch ((led.tick now s).pixels_current i)
      ≤ max (ch (s.pixels_previous i)) (ch (s.pixels_target i)) := by
  have e : led.tick now s = led.animate_step { s with hw := { s.hw with millis := now } } := by
    unfold led.tick led.loop
    rw [if_pos ha]
  have hmix : (led.animate_step { s with hw := { s.hw with millis := now } }).pixels_current i
      = led.step_color (s.pixels_previous i) (s.pixels_target i)
          (led.progress (led.elapsed { s with hw := { s.hw with millis := now } })) :=
    animate_step_mix { s with hw := { s.hw with millis := now } } hp1 hne i hi
  rw [e, hmix]
  generalize led.progress (led.elapsed { s with hw := { s.hw with millis := now } }) = p
    at hp0 hp1 ⊢
  obtain ⟨n, rfl⟩ := Int.eq_ofNat_of_zero_le hp0
  have hn : n < 255 := by omega
  have hc : ch (led.step_color (s.pixels_previous i) (s.pixels_target i) (n : Int))
      = led.step_channel (ch (s.pixels_previous i)) (ch (s.pixels_target i)) (n : Int) := by
    rcases hch with h | h | h | h <;> rw [h] <;> rfl
  rw [hc, Int.toNat_ofNat]
  have near := step_channel_near _ _ n hprev htar hn
  obtain ⟨b1, b2⟩ := spec_step_channel_bounds (ch (s.pixels_previous i))
    (ch (s.pixels_target i)) n (by omega)
  refine ⟨rfl, near, ?_, ?_⟩
  · rcases near with h | h <;> omega
  · rcases near with h | h <;> omega

/-- C19 on the device 7 ms into its fade: the red channel of pixel 0, on its
way from 50 to 0, is at most 50. -/
theorem step_within_one_of_exact_witness :
    steady_state.animating = true ∧
      led.progress (led.elapsed { steady_state with hw := { steady_state.hw with millis := 5007 } })
        = 5 ∧
      ((led.tick 5007 steady_state).pixels_current 0).r
        ≤ max (steady_state.pixels_previous 0).r (steady_state.pixels_target 0).r :=
  ⟨rfl, by decide,
    (step_within_one_of_exact steady_state 5007 0 ColorRGBW.r (Or.inl rfl) rfl (by decide)
      (by decide) (by decide) (by decide) (by decide) (by decide)).2.2.2⟩


/-! ## The buffers after the last step of a session -/

/-- C21: the code at a concrete session.  The sample device gets the command
`led.set_color` with red at the clock reading 5000 and its next tick runs at
5350.  That tick ends the session and leaves `pixels_target[0]` equal to
`pixels_current[0]`, both red at the brightness 50; `pixels_previous[0]` still
holds the white from before the fade, so it differs from `pixels_current[0]`. -/
theorem finished_session_keeps_previous :
    red_fade_state.animating = true ∧
      (led.tick 5350 red_fade_state).animating = false ∧
      (led.tick 5350 red_fade_state).pixels_current 0 = { r := 50, g := 0, b := 0, w := 0 } ∧
      (led.tick 5350 red_fade_state).pixels_target 0
        = (led.tick 5350 red_fade_state).pixels_current 0 ∧
      (led.tick 5350 red_fade_state).pixels_previous 0 = { r := 0, g := 0, b := 0, w := 50 } ∧
      (led.tick 5350 red_fade_state).pixels_previous 0
        ≠ (led.tick 5350 red_fade_state).pixels_current 0 := by
  decide

end Luxio
